import Mathlib

/-
Verification development for the happysad library (src/happysad.py).

The library mutates an instance's effective class at runtime between its
original class and a per-instance "synthetic" subclass, bookkeeping shadowed
attribute values across the swap, and provides a small descriptor framework
plus generator-based context managers for scoped toggling.

Shallow embedding conventions:
  * A Python class is a `Cls`: either an original class (identified by a
    numeric label, carrying no modeled class attributes) or a synthetic class
    (an index into the store's table of synthetic-class data).
  * A Python instance is an `Inst`: its current `__class__`, its instance
    `__dict__` (an insertion-ordered association list, like a Python dict),
    and the two hidden attributes `_Xoriginal_classX` / `_Xsynthetic_classX`
    modeled as optional fields (`none` = attribute absent).
  * Mutable heap state (instances, the per-synthetic-class `bookeeping` dicts
    and installed descriptors, descriptor objects, and external objects viewed
    by MemberView descriptors) lives in a `Store`; stateful Python functions
    become functions `Store → Except PyErr α × Store`.  The store is returned
    even on an error, since a raised Python exception does not roll back
    mutations already performed.
  * Python exceptions become `PyErr` values; `try/except AttributeError`
    becomes a match that swallows only `PyErr.attributeError`.
  * The synthetic class attributes `XsyntheticX` and `bookeeping` are modeled
    as structure fields of `SynthData`, not as names reachable through
    `getattr`; no bookkept or descriptor name ever collides with them in the
    modeled scenarios.
-/

set_option maxRecDepth 4096
set_option linter.unusedVariables false

deriving instance DecidableEq for Except

inductive Value where
  | int (n : Int)
  | str (s : String)
  | pynone
deriving DecidableEq

/-- A Python class: an original (plain, unmodeled-attribute) class identified
by a label, or a synthetic class identified by its index into the store. -/
inductive Cls where
  | orig (id : Nat)
  | synth (id : Nat)
deriving DecidableEq

/-- Python exceptions, by exception class (with message where the source
formats one). `except AttributeError` clauses in the source match exactly the
`attributeError` constructor. -/
inductive PyErr where
  | attributeError (msg : String)
  | valueError (msg : String)
  | typeError (msg : String)
  | exception (msg : String)
  | notImplementedError
deriving DecidableEq

/-- Ordered dictionary lookup (first matching key). -/
def dictGet {β : Type} : List (String × β) → String → Option β
  | [], _ => Option.none
  | p :: rest, k => if p.1 = k then some p.2 else dictGet rest k

/-- Ordered dictionary update: replaces the value at an existing key in
place (preserving order, as a Python dict does) or appends a new binding. -/
def dictSet {β : Type} : List (String × β) → String → β → List (String × β)
  | [], k, v => [(k, v)]
  | p :: rest, k, v => if p.1 = k then (k, v) :: rest else p :: dictSet rest k v

/-- Ordered dictionary deletion. -/
def dictDel {β : Type} (d : List (String × β)) (k : String) : List (String × β) :=
  d.filter (fun p => p.1 ≠ k)

/-- Data of one synthetic class created by `_create_synthetic_class`:
its base class, its `bookeeping` dict (attribute name → shadowed value), and
the descriptors later installed on it via `setattr(cls, name, descriptor)`
(attribute name → descriptor reference).  The `XsyntheticX = True` marker is
implicit in being a `Cls.synth`. -/
structure SynthData where
  base : Cls
  bookeeping : List (String × Value)
  descriptors : List (String × Nat)
deriving DecidableEq

/-- Kind of a descriptor object: the abstract `RetrievableDescriptor` base
(whose hooks raise `NotImplementedError`), a `MemberView` (forwarding to an
attribute of an external object), or a `ControlledSetter` (holding its own
private value). -/
inductive DescKind where
  | retrievable
  | memberView (viewed_object : Nat) (parameter : String)
  | controlledSetter (val : Value)
deriving DecidableEq

/-- A descriptor object: its `on_set` policy string and its kind-specific
state.  Descriptor objects have identity (they are referenced by index into
the store), since one descriptor object can be installed on several classes. -/
structure Descriptor where
  on_set : String
  kind : DescKind
deriving DecidableEq

/-- A Python instance: its current `__class__`, its instance dict of ordinary
attributes, and the hidden attributes `_Xoriginal_classX` and
`_Xsynthetic_classX` (`none` = attribute not present on the instance). -/
structure Inst where
  cls : Cls
  attrs : List (String × Value)
  xOriginal : Option Cls
  xSynthetic : Option Cls
deriving DecidableEq

/-- The mutable heap: instances, synthetic-class data, descriptor objects and
external objects (targets of `MemberView`), each referenced by index. -/
structure Store where
  insts : List Inst
  synths : List SynthData
  descs : List Descriptor
  exts : List (List (String × Value))
deriving DecidableEq

def defaultInst : Inst := { cls := Cls.orig 0, attrs := [], xOriginal := Option.none, xSynthetic := Option.none }

def defaultSynth : SynthData := { base := Cls.orig 0, bookeeping := [], descriptors := [] }

def getInst (s : Store) (r : Nat) : Inst := s.insts.getD r defaultInst

def synAt (s : Store) (k : Nat) : SynthData := s.synths.getD k defaultSynth

/-- The `bookeeping` dict of the synthetic class at index `k`. -/
def bkAt (s : Store) (k : Nat) : List (String × Value) := (synAt s k).bookeeping

/-- The descriptors installed on the synthetic class at index `k`. -/
def descrAt (s : Store) (k : Nat) : List (String × Nat) := (synAt s k).descriptors

def updateInst (s : Store) (r : Nat) (f : Inst → Inst) : Store :=
  { s with insts := s.insts.set r (f (getInst s r)) }

def updateSynth (s : Store) (k : Nat) (f : SynthData → SynthData) : Store :=
  { s with synths := s.synths.set k (f (synAt s k)) }

def updateDesc (s : Store) (d : Nat) (f : Descriptor → Descriptor) : Store :=
  { s with descs := s.descs.set d (f (s.descs.getD d { on_set := "pass", kind := DescKind.retrievable })) }

def updateExt (s : Store) (o : Nat) (d : List (String × Value)) : Store :=
  { s with exts := s.exts.set o d }

-- --- Synthetic/Original classes swapping

/-- `_original_class(inst)`: `inst._Xoriginal_classX`, falling back to
`inst.__class__` when the attribute is absent. -/
def _original_class (s : Store) (r : Nat) : Cls :=
  match (getInst s r).xOriginal with
  | some c => c
  | Option.none => (getInst s r).cls

/-- `_synthetic_class(inst)`: `inst._Xsynthetic_classX`, or `None` (here
`Option.none`) when the attribute is absent. -/
def _synthetic_class (s : Store) (r : Nat) : Option Cls :=
  (getInst s r).xSynthetic

/-- Resolves the synthetic class whose `bookeeping` dict
`_bookkept_attrs(inst)` returns (and mutates, in `_delete_old_attrs`).  When
the instance has no synthetic class, `_synthetic_class(inst)` is `None` and
`None.bookeeping` raises `AttributeError`; when the reference is not a
synthetic class in the store, attribute lookup of `bookeeping` likewise
raises `AttributeError` (the latter two arms are unreachable in well-formed
stores and exist for totality). -/
def _bookkept_ref (s : Store) (r : Nat) : Except PyErr Nat :=
  match _synthetic_class s r with
  | Option.none => Except.error (PyErr.attributeError "NoneType object has no attribute bookeeping")
  | some (Cls.orig _) => Except.error (PyErr.attributeError "bookeeping")
  | some (Cls.synth k) =>
      if k < s.synths.length then Except.ok k
      else Except.error (PyErr.attributeError "bookeeping")

/-- `_bookkept_attrs(inst)`: `_synthetic_class(inst).bookeeping`. -/
def _bookkept_attrs (s : Store) (r : Nat) : Except PyErr (List (String × Value)) :=
  (_bookkept_ref s r).map (fun k => bkAt s k)

/-- The loop body of `_delete_old_attrs`: for each attribute name, try
`bookkept[attr] = getattr(inst, attr); delattr(inst, attr)`, swallowing
`AttributeError` (raised by `getattr` when the attribute is absent; the
instance's class is the bare original class at this point, so `getattr` is
instance-dict lookup). -/
def _stash_attrs (s : Store) (r k : Nat) : List String → Store
  | [] => s
  | attr :: rest =>
      match dictGet (getInst s r).attrs attr with
      | some v =>
          let s1 := updateSynth s k (fun sd => { sd with bookeeping := dictSet sd.bookeeping attr v })
          let s2 := updateInst s1 r (fun i2 => { i2 with attrs := dictDel i2.attrs attr })
          _stash_attrs s2 r k rest
      | Option.none => _stash_attrs s r k rest

/-- `_delete_old_attrs(inst)`: when the instance currently has its original
class, stash every bookkept attribute value from the instance into the
bookkeeping dict and delete it from the instance.  The `_bookkept_attrs`
lookup is outside the `try`, so its `AttributeError` propagates. -/
def _delete_old_attrs (s : Store) (r : Nat) : Except PyErr Unit × Store :=
  if (getInst s r).cls = _original_class s r then
    match _bookkept_ref s r with
    | Except.error e => (Except.error e, s)
    | Except.ok k => (Except.ok (), _stash_attrs s r k ((bkAt s k).map Prod.fst))
  else (Except.ok (), s)

/-- `_set_synthetic(inst)`: `_delete_old_attrs(inst)` then
`inst.__class__ = _synthetic_class(inst)` (assigning `None` to `__class__`
would raise `TypeError`; that arm is unreachable because `_delete_old_attrs`
raises `AttributeError` first when there is no synthetic class). -/
def _set_synthetic (s : Store) (r : Nat) : Except PyErr Unit × Store :=
  match _delete_old_attrs s r with
  | (Except.error e, s1) => (Except.error e, s1)
  | (Except.ok _, s1) =>
      match (getInst s1 r).xSynthetic with
      | some c => (Except.ok (), updateInst s1 r (fun i2 => { i2 with cls := c }))
      | Option.none => (Except.error (PyErr.typeError "class must be set to a class, not None"), s1)

/-- The loop of `_reset_old_attrs`: `setattr(inst, attr, val)` for every
bookkept item (the instance's class is the bare original class here, so
`setattr` writes the instance dict). -/
def _restore_attrs (s : Store) (r : Nat) : List (String × Value) → Store
  | [] => s
  | (attr, v) :: rest =>
      _restore_attrs (updateInst s r (fun i2 => { i2 with attrs := dictSet i2.attrs attr v })) r rest

/-- `_reset_old_attrs(inst)`: when the instance currently has its original
class, set every bookkept attribute back onto the instance. -/
def _reset_old_attrs (s : Store) (r : Nat) : Except PyErr Unit × Store :=
  if (getInst s r).cls = _original_class s r then
    match _bookkept_attrs s r with
    | Except.error e => (Except.error e, s)
    | Except.ok bk => (Except.ok (), _restore_attrs s r bk)
  else (Except.ok (), s)

/-- `_set_original(inst)`: `inst.__class__ = _original_class(inst)` then
`_reset_old_attrs(inst)`. -/
def _set_original (s : Store) (r : Nat) : Except PyErr Unit × Store :=
  let s1 := updateInst s r (fun i2 => { i2 with cls := _original_class s r })
  _reset_old_attrs s1 r

/-- `_create_synthetic_class(cls)`: a fresh subclass of `cls` with
`XsyntheticX = True` and an empty `bookeeping` dict.  (The Python-2 old-style
class branch is not modeled; every modeled class is a new-style class.) -/
def _create_synthetic_class (s : Store) (cls : Cls) : Cls × Store :=
  (Cls.synth s.synths.length,
   { s with synths := s.synths ++ [{ base := cls, bookeeping := [], descriptors := [] }] })

/-- `force_synthetic_class(inst)`: create (and record) a synthetic class on
first patch, then `_set_synthetic(inst)`; returns `inst.__class__`. -/
def force_synthetic_class (s : Store) (r : Nat) : Except PyErr Cls × Store :=
  let s1 :=
    if (getInst s r).xSynthetic = Option.none then
      let created := _create_synthetic_class s (getInst s r).cls
      updateInst created.2 r (fun i2 =>
        { i2 with xSynthetic := some created.1, xOriginal := some i2.cls, cls := created.1 })
    else s
  match _set_synthetic s1 r with
  | (Except.error e, s2) => (Except.error e, s2)
  | (Except.ok _, s2) => (Except.ok (getInst s2 r).cls, s2)

/-- `maybe_synthetic_class(inst)`: `_set_synthetic(inst)` with
`AttributeError` swallowed; returns `inst.__class__`. -/
def maybe_synthetic_class (s : Store) (r : Nat) : Except PyErr Cls × Store :=
  match _set_synthetic s r with
  | (Except.ok _, s1) => (Except.ok (getInst s1 r).cls, s1)
  | (Except.error (PyErr.attributeError _), s1) => (Except.ok (getInst s1 r).cls, s1)
  | (Except.error e, s1) => (Except.error e, s1)

/-- `force_original_class(inst)`: `_set_original(inst)` with `AttributeError`
swallowed; returns `inst.__class__`. -/
def force_original_class (s : Store) (r : Nat) : Except PyErr Cls × Store :=
  match _set_original s r with
  | (Except.ok _, s1) => (Except.ok (getInst s1 r).cls, s1)
  | (Except.error (PyErr.attributeError _), s1) => (Except.ok (getInst s1 r).cls, s1)
  | (Except.error e, s1) => (Except.error e, s1)

/-- `forget_synthetic_class(inst)`: `force_original_class(inst)` then
`delattr(inst, '_Xsynthetic_classX')`, with `AttributeError` swallowed;
returns `inst.__class__`. -/
def forget_synthetic_class (s : Store) (r : Nat) : Except PyErr Cls × Store :=
  match force_original_class s r with
  | (Except.ok _, s1) =>
      if (getInst s1 r).xSynthetic = Option.none then (Except.ok (getInst s1 r).cls, s1)
      else
        let s2 := updateInst s1 r (fun i2 => { i2 with xSynthetic := Option.none })
        (Except.ok (getInst s2 r).cls, s2)
  | (Except.error (PyErr.attributeError _), s1) => (Except.ok (getInst s1 r).cls, s1)
  | (Except.error e, s1) => (Except.error e, s1)

-- --- Descriptors

/-- `RetrievableDescriptor.__init__`: validates the `on_set` policy, raising
`ValueError` for an unrecognized one (the source formats the message with
`%r`; the quoting characters are elided here). -/
def valid_on_set : List String := ["pass", "fail", "set"]

def RetrievableDescriptor_init (on_set : String) : Except PyErr String :=
  if valid_on_set.contains on_set then Except.ok on_set
  else Except.error (PyErr.valueError "on_set must be one of (pass, fail, set)")

/-- `MemberView.__init__(viewed_object, parameter, on_set)`. -/
def MemberView_init (viewed_object : Nat) (parameter : String) (on_set : String) :
    Except PyErr Descriptor :=
  (RetrievableDescriptor_init on_set).map
    (fun os => { on_set := os, kind := DescKind.memberView viewed_object parameter })

/-- `ControlledSetter.__init__(val, on_set)`. -/
def ControlledSetter_init (val : Value) (on_set : String) : Except PyErr Descriptor :=
  (RetrievableDescriptor_init on_set).map
    (fun os => { on_set := os, kind := DescKind.controlledSetter val })

/-- `_get_hook(self, instance, owner)`: `NotImplementedError` on the abstract
base; `getattr(self.viewed_object, self.parameter)` for `MemberView`;
`self.val` for `ControlledSetter`.  The `instance` and `owner` arguments are
ignored by both concrete hooks, as in the source. -/
def _get_hook (s : Store) (d : Descriptor) (iref : Nat) (owner : Cls) : Except PyErr Value :=
  match d.kind with
  | DescKind.retrievable => Except.error PyErr.notImplementedError
  | DescKind.memberView obj param =>
      match s.exts[obj]? with
      | some o =>
          match dictGet o param with
          | some v => Except.ok v
          | Option.none => Except.error (PyErr.attributeError param)
      | Option.none => Except.error (PyErr.typeError "invalid external object reference")
  | DescKind.controlledSetter v => Except.ok v

/-- `_set_hook(self, instance, value)`: `NotImplementedError` on the abstract
base; `setattr(self.viewed_object, self.parameter, value)` for `MemberView`;
`self.val = value` for `ControlledSetter` (mutating the descriptor object). -/
def _set_hook (s : Store) (dref : Nat) (iref : Nat) (value : Value) : Except PyErr Unit × Store :=
  match s.descs[dref]? with
  | Option.none => (Except.error (PyErr.typeError "invalid descriptor reference"), s)
  | some d =>
      match d.kind with
      | DescKind.retrievable => (Except.error PyErr.notImplementedError, s)
      | DescKind.memberView obj param =>
          match s.exts[obj]? with
          | some o => (Except.ok (), updateExt s obj (dictSet o param value))
          | Option.none => (Except.error (PyErr.typeError "invalid external object reference"), s)
      | DescKind.controlledSetter _ =>
          (Except.ok (), updateDesc s dref (fun dd => { dd with kind := DescKind.controlledSetter value }))

/-- Result of an attribute read: an ordinary value, or the descriptor object
itself (as returned by `__get__` when accessed through the class). -/
inductive PyVal where
  | val (v : Value)
  | descRef (d : Nat)
deriving DecidableEq

/-- `RetrievableDescriptor.__get__(self, instance, owner)`: returns the
descriptor object itself when `instance is None` (access through the class),
otherwise delegates to `_get_hook`. -/
def descGet (s : Store) (dref : Nat) (i : Option Nat) (owner : Cls) : Except PyErr PyVal :=
  match s.descs[dref]? with
  | Option.none => Except.error (PyErr.typeError "invalid descriptor reference")
  | some d =>
      match i with
      | Option.none => Except.ok (PyVal.descRef dref)
      | some iref => (_get_hook s d iref owner).map PyVal.val

/-- `RetrievableDescriptor.__set__(self, instance, value)`: raises
`Exception('Trying to set a read only constant')` under the `fail` policy,
delegates to `_set_hook` under `set`, and does nothing under `pass`. -/
def descSet (s : Store) (dref : Nat) (iref : Nat) (value : Value) : Except PyErr Unit × Store :=
  match s.descs[dref]? with
  | Option.none => (Except.error (PyErr.typeError "invalid descriptor reference"), s)
  | some d =>
      if d.on_set = "fail" then
        (Except.error (PyErr.exception "Trying to set a read only constant"), s)
      else if d.on_set = "set" then _set_hook s dref iref value
      else (Except.ok (), s)

/-- Descriptor lookup along a class's method-resolution order: a synthetic
class's own installed descriptors, then its base's (original classes carry no
modeled descriptors).  The fuel bounds the base-chain walk; `lookupDescriptor`
supplies more fuel than any acyclic chain in the store can use. -/
def lookupDescriptorAux (s : Store) : Nat → Cls → String → Option Nat
  | _, Cls.orig _, _ => Option.none
  | 0, Cls.synth _, _ => Option.none
  | Nat.succ fuel, Cls.synth k, name =>
      match s.synths[k]? with
      | Option.none => Option.none
      | some sd =>
          match dictGet sd.descriptors name with
          | some d => some d
          | Option.none => lookupDescriptorAux s fuel sd.base name

def lookupDescriptor (s : Store) (c : Cls) (name : String) : Option Nat :=
  lookupDescriptorAux s (s.synths.length + 1) c name

/-- `getattr(inst, name)`: a data descriptor found on the instance's class
takes precedence (all of the framework's descriptors define both `__get__`
and `__set__`, hence are data descriptors); otherwise the instance dict is
consulted; otherwise `AttributeError`. -/
def instGetattr (s : Store) (r : Nat) (name : String) : Except PyErr PyVal :=
  match lookupDescriptor s (getInst s r).cls name with
  | some dref => descGet s dref (some r) (getInst s r).cls
  | Option.none =>
      match dictGet (getInst s r).attrs name with
      | some v => Except.ok (PyVal.val v)
      | Option.none => Except.error (PyErr.attributeError name)

/-- `setattr(inst, name, value)`: routed through a data descriptor on the
instance's class when one is installed under `name`, else writes the
instance dict. -/
def instSetattr (s : Store) (r : Nat) (name : String) (value : Value) : Except PyErr Unit × Store :=
  match lookupDescriptor s (getInst s r).cls name with
  | some dref => descSet s dref r value
  | Option.none =>
      (Except.ok (), updateInst s r (fun i2 => { i2 with attrs := dictSet i2.attrs name value }))

-- --- Context managers

/-- The body of the `for name, descriptor in descriptors.items()` loop of
`add_descriptors`: per pair, a `try` block (stash the current value into the
bookkeeping dict when `bookkeep_attrs`, then `delattr`), swallowing
`AttributeError`, followed by `setattr(cls, name, descriptor)` on the
synthetic class `k`. -/
def add_descriptors_loop (r k : Nat) (bookkeep_attrs : Bool) :
    List (String × Nat) → Store → Except PyErr Unit × Store
  | [], s => (Except.ok (), s)
  | (name, dref) :: rest, s =>
      let tryRes : Except PyErr Store :=
        if bookkeep_attrs then
          match instGetattr s r name with
          | Except.ok (PyVal.val v) =>
              let s1 := updateSynth s k (fun sd => { sd with bookeeping := dictSet sd.bookeeping name v })
              Except.ok
                (match dictGet (getInst s1 r).attrs name with
                 | some _ => updateInst s1 r (fun i2 => { i2 with attrs := dictDel i2.attrs name })
                 | Option.none => s1)
          | Except.ok (PyVal.descRef _) => Except.ok s
          | Except.error (PyErr.attributeError _) => Except.ok s
          | Except.error e => Except.error e
        else
          Except.ok
            (match dictGet (getInst s r).attrs name with
             | some _ => updateInst s r (fun i2 => { i2 with attrs := dictDel i2.attrs name })
             | Option.none => s)
      match tryRes with
      | Except.error e => (Except.error e, s)
      | Except.ok s2 =>
          let s3 := updateSynth s2 k (fun sd => { sd with descriptors := dictSet sd.descriptors name dref })
          add_descriptors_loop r k bookkeep_attrs rest s3

/-- `add_descriptors(inst, bookkeep_attrs, **descriptors)`:
`cls = force_synthetic_class(inst)` then the installation loop; returns
`inst`.  (`force_synthetic_class` always returns a synthetic class on
success; the `Cls.orig` arm is unreachable and present for totality.) -/
def add_descriptors (s : Store) (r : Nat) (bookkeep_attrs : Bool)
    (descriptors : List (String × Nat)) : Except PyErr Nat × Store :=
  match force_synthetic_class s r with
  | (Except.error e, s1) => (Except.error e, s1)
  | (Except.ok (Cls.synth k), s1) =>
      match add_descriptors_loop r k bookkeep_attrs descriptors s1 with
      | (Except.error e, s2) => (Except.error e, s2)
      | (Except.ok _, s2) => (Except.ok r, s2)
  | (Except.ok (Cls.orig _), s1) => (Except.error (PyErr.typeError "synthetic class expected"), s1)

/-- `tuple(force_synthetic_class(inst) for inst in insts)` evaluated at the
`yield` of `synthetic_class`, left to right, an exception aborting the rest. -/
def force_each : List Nat → Store → Except PyErr (List Cls) × Store
  | [], s => (Except.ok [], s)
  | r :: rest, s =>
      match force_synthetic_class s r with
      | (Except.error e, s1) => (Except.error e, s1)
      | (Except.ok c, s1) =>
          match force_each rest s1 with
          | (Except.error e, s2) => (Except.error e, s2)
          | (Except.ok cs, s2) => (Except.ok (c :: cs), s2)

/-- The restoration loop after the `yield` of `synthetic_class`:
`for cls, inst in zip(classes, insts): if cls == _original_class(inst):
force_original_class(inst)`. -/
def synthetic_class_exit : List Cls → List Nat → Store → Except PyErr Unit × Store
  | c :: cs, r :: rs, s =>
      if c = _original_class s r then
        match force_original_class s r with
        | (Except.error e, s1) => (Except.error e, s1)
        | (Except.ok _, s1) => synthetic_class_exit cs rs s1
      else synthetic_class_exit cs rs s
  | _, _, s => (Except.ok (), s)

/-- The `synthetic_class(inst, *insts)` context manager, run against a body.
The generator snapshots `[inst.__class__ for inst in insts]`, forces every
instance synthetic at the `yield`, runs the body, and then runs the
restoration loop.  There is no `try/finally` around the `yield` in the
source: when the body raises, `contextlib.contextmanager.__exit__` throws the
exception into the generator at the `yield` point and the restoration loop
after the `yield` never runs, so the error propagates with the store as the
body left it. -/
def synthetic_class_run (r : Nat) (rs : List Nat)
    (body : Store → Except PyErr Unit × Store) (s : Store) : Except PyErr Unit × Store :=
  let refs := r :: rs
  let classes := refs.map (fun x => (getInst s x).cls)
  match force_each refs s with
  | (Except.error e, s1) => (Except.error e, s1)
  | (Except.ok _, s1) =>
      match body s1 with
      | (Except.error e, s2) => (Except.error e, s2)
      | (Except.ok _, s2) => synthetic_class_exit classes refs s2

/-- `force_original_class(inst)` or `forget_synthetic_class(inst)` depending
on the factory's `forget` flag. -/
def to_original_one (forget : Bool) (s : Store) (r : Nat) : Except PyErr Cls × Store :=
  if forget then forget_synthetic_class s r else force_original_class s r

/-- The per-instance forcing at the `yield` of the factory-made context
managers (`original_class` / `no_synthetic_class`), left to right. -/
def to_original_each (forget : Bool) : List Nat → Store → Except PyErr (List Cls) × Store
  | [], s => (Except.ok [], s)
  | r :: rest, s =>
      match to_original_one forget s r with
      | (Except.error e, s1) => (Except.error e, s1)
      | (Except.ok c, s1) =>
          match to_original_each forget rest s1 with
          | (Except.error e, s2) => (Except.error e, s2)
          | (Except.ok cs, s2) => (Except.ok (c :: cs), s2)

/-- The restoration loop after the `yield` of the factory-made context
managers: for each instance, when its snapshotted synthetic class is not
`None`, re-establish `inst._Xsynthetic_classX` and, when the snapshotted
current class was that synthetic class, `force_synthetic_class(inst)`. -/
def original_cm_exit :
    List Cls → List (Option Cls) → List Nat → Store → Except PyErr Unit × Store
  | c :: cs, sc :: scs, r :: rs, s =>
      match sc with
      | Option.none => original_cm_exit cs scs rs s
      | some syc =>
          let s1 := updateInst s r (fun i2 => { i2 with xSynthetic := some syc })
          if _synthetic_class s1 r = some c then
            match force_synthetic_class s1 r with
            | (Except.error e, s2) => (Except.error e, s2)
            | (Except.ok _, s2) => original_cm_exit cs scs rs s2
          else original_cm_exit cs scs rs s1
  | _, _, _, s => (Except.ok (), s)

/-- A context manager made by `_original_class_contextmanager_factory`
(`original_class` when `forget = false`, `no_synthetic_class` when
`forget = true`), run against a body.  The generator snapshots the current
and synthetic classes, forces every instance original (or forgets its
synthetic class) at the `yield`, runs the body, and then runs the restoration
loop.  As with `synthetic_class`, there is no `try/finally` around the
`yield`: when the body raises, the restoration loop never runs. -/
def original_cm_run (forget : Bool) (r : Nat) (rs : List Nat)
    (body : Store → Except PyErr Unit × Store) (s : Store) : Except PyErr Unit × Store :=
  let refs := r :: rs
  let current_classes := refs.map (fun x => (getInst s x).cls)
  let synth_classes := refs.map (fun x => _synthetic_class s x)
  match to_original_each forget refs s with
  | (Except.error e, s1) => (Except.error e, s1)
  | (Except.ok _, s1) =>
      match body s1 with
      | (Except.error e, s2) => (Except.error e, s2)
      | (Except.ok _, s2) => original_cm_exit current_classes synth_classes refs s2

-- --- Spec-level error names (each abbreviates the concrete exception the
-- source raises at the corresponding point)

/-- The spec's `ReadOnlyError`: the bare `Exception` raised by
`RetrievableDescriptor.__set__` under the `fail` policy. -/
def ReadOnlyError : PyErr := PyErr.exception "Trying to set a read only constant"

/-- The spec's `InvalidPolicyError`: the `ValueError` raised by
`RetrievableDescriptor.__init__` on an unrecognized policy. -/
def InvalidPolicyError : PyErr := PyErr.valueError "on_set must be one of (pass, fail, set)"

/-- The spec's `NoSyntheticTypeError`: the `AttributeError` raised by
`_bookkept_attrs` when `_synthetic_class(inst)` is `None`. -/
def NoSyntheticTypeError : PyErr :=
  PyErr.attributeError "NoneType object has no attribute bookeeping"

/-- The keys of the bookkeeping dict of the instance's synthetic class
(empty when the instance has none). -/
def bkKeys (s : Store) (r : Nat) : List String :=
  match _synthetic_class s r with
  | some (Cls.synth k) => (bkAt s k).map Prod.fst
  | _ => []

/-- Well-formedness of instance `r` in store `s`, an invariant of every state
reachable through the library's interface: the reference is live; the hidden
class attributes are in one of the three shapes that arise (never patched,
patched, or forgotten); a recorded synthetic class is a live synthetic class
whose bookkeeping dict has no duplicate keys; and the current class is one of
the two recorded personalities (respectively, a live class when unpatched). -/
def instWF (s : Store) (r : Nat) : Bool :=
  decide (r < s.insts.length) &&
  match (getInst s r).xOriginal, (getInst s r).xSynthetic, (getInst s r).cls with
  | Option.none, Option.none, Cls.orig _ => true
  | some (Cls.orig j), Option.none, c => c == Cls.orig j
  | some (Cls.orig j), some (Cls.synth k), c =>
      decide (k < s.synths.length) &&
      (c == Cls.orig j || c == Cls.synth k) &&
      decide ((bkAt s k).map Prod.fst).Nodup
  | _, _, _ => false

-- --- Concrete stores used to exercise the model

/-- A patched instance (reference 0) currently wearing its original class,
with one attribute and one bookkept name. -/
def sPatchedDemo : Store :=
  { insts := [{ cls := Cls.orig 0, attrs := [("a", Value.int 5)],
                xOriginal := some (Cls.orig 0), xSynthetic := some (Cls.synth 0) }],
    synths := [{ base := Cls.orig 0, bookeeping := [("a", Value.int 1)], descriptors := [] }],
    descs := [], exts := [] }

/-- A patched instance (reference 0) currently wearing its synthetic class;
its attribute is stashed in the bookkeeping dict. -/
def sSyntheticDemo : Store :=
  { insts := [{ cls := Cls.synth 0, attrs := [],
                xOriginal := some (Cls.orig 0), xSynthetic := some (Cls.synth 0) }],
    synths := [{ base := Cls.orig 0, bookeeping := [("a", Value.int 5)], descriptors := [] }],
    descs := [], exts := [] }

/-- A never-patched instance (reference 0) with one attribute. -/
def sUnpatchedDemo : Store :=
  { insts := [{ cls := Cls.orig 0, attrs := [("a", Value.int 5)],
                xOriginal := Option.none, xSynthetic := Option.none }],
    synths := [], descs := [], exts := [] }

/-- An instance in synthetic state with a reject-policy `ControlledSetter`
installed under `"x"` (descriptor 0) and the abstract base descriptor also in
the store (descriptor 1). -/
def sDescDemo : Store :=
  { insts := [{ cls := Cls.synth 0, attrs := [],
                xOriginal := some (Cls.orig 0), xSynthetic := some (Cls.synth 0) }],
    synths := [{ base := Cls.orig 0, bookeeping := [], descriptors := [("x", 0)] }],
    descs := [{ on_set := "fail", kind := DescKind.controlledSetter (Value.int 7) },
              { on_set := "pass", kind := DescKind.retrievable }],
    exts := [] }

/-- Two instances in synthetic state whose synthetic classes both carry the
same apply-policy `ControlledSetter` object (descriptor 0), under different
names. -/
def sSharedDemo : Store :=
  { insts := [{ cls := Cls.synth 0, attrs := [],
                xOriginal := some (Cls.orig 0), xSynthetic := some (Cls.synth 0) },
              { cls := Cls.synth 1, attrs := [],
                xOriginal := some (Cls.orig 1), xSynthetic := some (Cls.synth 1) }],
    synths := [{ base := Cls.orig 0, bookeeping := [], descriptors := [("x", 0)] },
               { base := Cls.orig 1, bookeeping := [], descriptors := [("y", 0)] }],
    descs := [{ on_set := "set", kind := DescKind.controlledSetter (Value.int 1) }],
    exts := [] }

/-- A context-manager body that raises. -/
def bodyRaise : Store → Except PyErr Unit × Store :=
  fun t => (Except.error (PyErr.exception "boom"), t)

-- --- Dictionary lemmas

theorem dictGet_dictSet_self {β : Type} (d : List (String × β)) (k : String) (v : β) :
    dictGet (dictSet d k v) k = some v := by
  induction d with
  | nil => simp [dictSet, dictGet]
  | cons p rest ih =>
    by_cases h : p.1 = k
    · simp [dictSet, h, dictGet]
    · simp [dictSet, h, dictGet, ih]

theorem dictGet_dictSet_ne {β : Type} (d : List (String × β)) (k k2 : String) (v : β)
    (h : k2 ≠ k) : dictGet (dictSet d k v) k2 = dictGet d k2 := by
  induction d with
  | nil => simp [dictSet, dictGet, Ne.symm h]
  | cons p rest ih =>
    by_cases hp : p.1 = k
    · subst hp
      simp [dictSet, dictGet, Ne.symm h]
    · simp only [dictSet, if_neg hp, dictGet]
      by_cases hp2 : p.1 = k2
      · simp [hp2]
      · simp [hp2, ih]

theorem dictGet_dictDel_self {β : Type} (d : List (String × β)) (k : String) :
    dictGet (dictDel d k) k = Option.none := by
  induction d with
  | nil => simp [dictDel, dictGet]
  | cons p rest ih =>
    by_cases h : p.1 = k
    · simpa [dictDel, List.filter_cons, h] using ih
    · simpa [dictDel, List.filter_cons, h, dictGet] using ih

theorem dictGet_dictDel_ne {β : Type} (d : List (String × β)) (k k2 : String)
    (h : k2 ≠ k) : dictGet (dictDel d k) k2 = dictGet d k2 := by
  induction d with
  | nil => simp [dictDel]
  | cons p rest ih =>
    by_cases hp : p.1 = k
    · subst hp
      simpa [dictDel, List.filter_cons, dictGet, Ne.symm h] using ih
    · by_cases hp2 : p.1 = k2
      · simp [dictDel, List.filter_cons, dictGet, hp, hp2, h]
      · simpa [dictDel, List.filter_cons, dictGet, hp, hp2] using ih

theorem dictGet_isSome_iff {β : Type} (d : List (String × β)) (k : String) :
    (dictGet d k).isSome = true ↔ k ∈ d.map Prod.fst := by
  induction d with
  | nil => simp [dictGet]
  | cons p rest ih =>
    by_cases h : p.1 = k
    · simp [dictGet, h]
    · rw [List.map_cons]
      simp only [dictGet, if_neg h, List.mem_cons]
      rw [ih]
      constructor
      · exact fun hm => Or.inr hm
      · rintro (h1 | h1)
        · exact absurd h1.symm h
        · exact h1

theorem dictSet_map_fst_of_mem {β : Type} (d : List (String × β)) (k : String) (v : β)
    (h : k ∈ d.map Prod.fst) : (dictSet d k v).map Prod.fst = d.map Prod.fst := by
  induction d with
  | nil => simp at h
  | cons p rest ih =>
    by_cases hp : p.1 = k
    · simp [dictSet, hp]
    · have : k ∈ rest.map Prod.fst := by
        rcases (by simpa using h) with h1 | h1
        · exact absurd h1.symm hp
        · simpa using h1
      simp [dictSet, hp, ih this]

-- --- Store access lemmas

theorem list_set_getD_self {α : Type} (l : List α) (n : Nat) (d : α) :
    l.set n (l.getD n d) = l := by
  induction l generalizing n with
  | nil => rfl
  | cons a t ih =>
    cases n with
    | zero => rfl
    | succ m => simpa [List.set, List.getD] using ih m

theorem getInst_updateInst_self (s : Store) (r : Nat) (f : Inst → Inst)
    (hr : r < s.insts.length) : getInst (updateInst s r f) r = f (getInst s r) := by
  simp [getInst, updateInst, List.getD_eq_getElem?_getD]
  rw [List.getElem?_set_self']
  simp [List.getElem?_eq_getElem hr]

theorem getInst_updateSynth (s : Store) (k : Nat) (f : SynthData → SynthData) (r : Nat) :
    getInst (updateSynth s k f) r = getInst s r := rfl

theorem synAt_updateInst (s : Store) (r : Nat) (f : Inst → Inst) (k : Nat) :
    synAt (updateInst s r f) k = synAt s k := rfl

theorem bkAt_updateInst (s : Store) (r : Nat) (f : Inst → Inst) (k : Nat) :
    bkAt (updateInst s r f) k = bkAt s k := rfl

theorem synAt_updateSynth_self (s : Store) (k : Nat) (f : SynthData → SynthData)
    (hk : k < s.synths.length) : synAt (updateSynth s k f) k = f (synAt s k) := by
  simp [synAt, updateSynth, List.getD_eq_getElem?_getD]
  rw [List.getElem?_set_self']
  simp [List.getElem?_eq_getElem hk]

theorem insts_length_updateInst (s : Store) (r : Nat) (f : Inst → Inst) :
    (updateInst s r f).insts.length = s.insts.length := by
  simp [updateInst]

theorem synths_updateInst (s : Store) (r : Nat) (f : Inst → Inst) :
    (updateInst s r f).synths = s.synths := rfl

theorem insts_updateSynth (s : Store) (k : Nat) (f : SynthData → SynthData) :
    (updateSynth s k f).insts = s.insts := rfl

theorem synths_length_updateSynth (s : Store) (k : Nat) (f : SynthData → SynthData) :
    (updateSynth s k f).synths.length = s.synths.length := by
  simp [updateSynth]

theorem updateInst_preserves (s : Store) (r : Nat) (f : Inst → Inst)
    (h : f (getInst s r) = getInst s r) : updateInst s r f = s := by
  show { s with insts := s.insts.set r (f (getInst s r)) } = s
  rw [h]
  show { s with insts := s.insts.set r (s.insts.getD r defaultInst) } = s
  rw [list_set_getD_self]

-- --- Characterization of the stash loop (`_delete_old_attrs`)

theorem stash_shape (r k : Nat) (keys : List String) : ∀ s : Store,
    (_stash_attrs s r k keys).insts.length = s.insts.length ∧
    (_stash_attrs s r k keys).synths.length = s.synths.length ∧
    (_stash_attrs s r k keys).descs = s.descs ∧
    (_stash_attrs s r k keys).exts = s.exts := by
  induction keys with
  | nil => exact fun s => ⟨rfl, rfl, rfl, rfl⟩
  | cons a rest ih =>
    intro s
    simp only [_stash_attrs]
    cases h : dictGet (getInst s r).attrs a with
    | none => exact ih s
    | some v =>
      have h2 := ih (updateInst
        (updateSynth s k (fun sd => { sd with bookeeping := dictSet sd.bookeeping a v })) r
        (fun i2 => { i2 with attrs := dictDel i2.attrs a }))
      simpa [insts_length_updateInst, insts_updateSynth, synths_updateInst,
             synths_length_updateSynth, updateInst, updateSynth] using h2

theorem stash_fields (r k : Nat) (keys : List String) : ∀ s : Store, r < s.insts.length →
    (getInst (_stash_attrs s r k keys) r).cls = (getInst s r).cls ∧
    (getInst (_stash_attrs s r k keys) r).xOriginal = (getInst s r).xOriginal ∧
    (getInst (_stash_attrs s r k keys) r).xSynthetic = (getInst s r).xSynthetic := by
  induction keys with
  | nil => exact fun s _ => ⟨rfl, rfl, rfl⟩
  | cons a rest ih =>
    intro s hr
    simp only [_stash_attrs]
    cases h : dictGet (getInst s r).attrs a with
    | none => exact ih s hr
    | some v =>
      have hr1 : r < (updateSynth s k
          (fun sd => { sd with bookeeping := dictSet sd.bookeeping a v })).insts.length := hr
      have hr2 : r < (updateInst
          (updateSynth s k (fun sd => { sd with bookeeping := dictSet sd.bookeeping a v })) r
          (fun i2 => { i2 with attrs := dictDel i2.attrs a })).insts.length := by
        simpa [insts_length_updateInst] using hr
      have h2 := ih (updateInst
        (updateSynth s k (fun sd => { sd with bookeeping := dictSet sd.bookeeping a v })) r
        (fun i2 => { i2 with attrs := dictDel i2.attrs a })) hr2
      rwa [getInst_updateInst_self _ _ _ hr1, getInst_updateSynth] at h2

theorem stash_attrs_get (r k : Nat) (keys : List String) : ∀ s : Store, r < s.insts.length →
    ∀ name, dictGet (getInst (_stash_attrs s r k keys) r).attrs name =
      if name ∈ keys then Option.none else dictGet (getInst s r).attrs name := by
  induction keys with
  | nil => intro s hr name; simp [_stash_attrs]
  | cons a rest ih =>
    intro s hr name
    simp only [_stash_attrs]
    cases h : dictGet (getInst s r).attrs a with
    | none =>
      rw [ih s hr name]
      by_cases hn : name = a
      · subst hn
        simp [h]
      · simp [List.mem_cons, hn]
    | some v =>
      have hr1 : r < (updateSynth s k
          (fun sd => { sd with bookeeping := dictSet sd.bookeeping a v })).insts.length := hr
      have hr2 : r < (updateInst
          (updateSynth s k (fun sd => { sd with bookeeping := dictSet sd.bookeeping a v })) r
          (fun i2 => { i2 with attrs := dictDel i2.attrs a })).insts.length := by
        simpa [insts_length_updateInst] using hr
      rw [ih _ hr2 name, getInst_updateInst_self _ _ _ hr1, getInst_updateSynth]
      by_cases hn : name = a
      · subst hn
        simp [dictGet_dictDel_self]
      · simp only [List.mem_cons, hn, false_or]
        by_cases hm : name ∈ rest
        · simp [hm]
        · simp [hm, dictGet_dictDel_ne _ _ _ hn]

theorem stash_bk_get (r k : Nat) (keys : List String) : ∀ s : Store,
    r < s.insts.length → k < s.synths.length →
    ∀ name, dictGet (bkAt (_stash_attrs s r k keys) k) name =
      if name ∈ keys ∧ (dictGet (getInst s r).attrs name).isSome = true
      then dictGet (getInst s r).attrs name
      else dictGet (bkAt s k) name := by
  induction keys with
  | nil => intro s hr hk name; simp [_stash_attrs]
  | cons a rest ih =>
    intro s hr hk name
    simp only [_stash_attrs]
    cases h : dictGet (getInst s r).attrs a with
    | none =>
      rw [ih s hr hk name]
      by_cases hn : name = a
      · subst hn
        simp [h]
      · simp [List.mem_cons, hn]
    | some v =>
      have hr1 : r < (updateSynth s k
          (fun sd => { sd with bookeeping := dictSet sd.bookeeping a v })).insts.length := hr
      have hr2 : r < (updateInst
          (updateSynth s k (fun sd => { sd with bookeeping := dictSet sd.bookeeping a v })) r
          (fun i2 => { i2 with attrs := dictDel i2.attrs a })).insts.length := by
        simpa [insts_length_updateInst] using hr
      have hk2 : k < (updateInst
          (updateSynth s k (fun sd => { sd with bookeeping := dictSet sd.bookeeping a v })) r
          (fun i2 => { i2 with attrs := dictDel i2.attrs a })).synths.length := by
        simpa [synths_updateInst, synths_length_updateSynth] using hk
      rw [ih _ hr2 hk2 name]
      rw [getInst_updateInst_self _ _ _ hr1, getInst_updateSynth]
      have hbk : bkAt (updateInst
          (updateSynth s k (fun sd => { sd with bookeeping := dictSet sd.bookeeping a v })) r
          (fun i2 => { i2 with attrs := dictDel i2.attrs a })) k
          = dictSet (bkAt s k) a v := by
        rw [bkAt_updateInst]
        show (synAt (updateSynth s k
          (fun sd => { sd with bookeeping := dictSet sd.bookeeping a v })) k).bookeeping = _
        rw [synAt_updateSynth_self s k _ hk]
        rfl
      rw [hbk]
      by_cases hn : name = a
      · subst hn
        simp [dictGet_dictDel_self, dictGet_dictSet_self, h]
      · rw [dictGet_dictDel_ne _ _ _ hn, dictGet_dictSet_ne _ _ _ _ hn]
        simp [List.mem_cons, hn]

theorem stash_bk_keys (r k : Nat) (keys : List String) : ∀ s : Store,
    r < s.insts.length → k < s.synths.length →
    (∀ a ∈ keys, a ∈ (bkAt s k).map Prod.fst) →
    (bkAt (_stash_attrs s r k keys) k).map Prod.fst = (bkAt s k).map Prod.fst := by
  induction keys with
  | nil => intro s hr hk hsub; rfl
  | cons a rest ih =>
    intro s hr hk hsub
    simp only [_stash_attrs]
    cases h : dictGet (getInst s r).attrs a with
    | none => exact ih s hr hk (fun b hb => hsub b (List.mem_cons_of_mem a hb))
    | some v =>
      have hr2 : r < (updateInst
          (updateSynth s k (fun sd => { sd with bookeeping := dictSet sd.bookeeping a v })) r
          (fun i2 => { i2 with attrs := dictDel i2.attrs a })).insts.length := by
        simpa [insts_length_updateInst] using hr
      have hk2 : k < (updateInst
          (updateSynth s k (fun sd => { sd with bookeeping := dictSet sd.bookeeping a v })) r
          (fun i2 => { i2 with attrs := dictDel i2.attrs a })).synths.length := by
        simpa [synths_updateInst, synths_length_updateSynth] using hk
      have hbk : bkAt (updateInst
          (updateSynth s k (fun sd => { sd with bookeeping := dictSet sd.bookeeping a v })) r
          (fun i2 => { i2 with attrs := dictDel i2.attrs a })) k
          = dictSet (bkAt s k) a v := by
        rw [bkAt_updateInst]
        show (synAt (updateSynth s k
          (fun sd => { sd with bookeeping := dictSet sd.bookeeping a v })) k).bookeeping = _
        rw [synAt_updateSynth_self s k _ hk]
        rfl
      have hkeys : (dictSet (bkAt s k) a v).map Prod.fst = (bkAt s k).map Prod.fst :=
        dictSet_map_fst_of_mem _ _ _ (hsub a (List.mem_cons_self a rest))
      rw [ih _ hr2 hk2 (by rw [hbk, hkeys]; exact fun b hb => hsub b (List.mem_cons_of_mem a hb)),
          hbk, hkeys]

-- --- Characterization of the restore loop (`_reset_old_attrs`)

theorem restore_shape (r : Nat) (items : List (String × Value)) : ∀ s : Store,
    (_restore_attrs s r items).insts.length = s.insts.length ∧
    (_restore_attrs s r items).synths = s.synths ∧
    (_restore_attrs s r items).descs = s.descs ∧
    (_restore_attrs s r items).exts = s.exts := by
  induction items with
  | nil => exact fun s => ⟨rfl, rfl, rfl, rfl⟩
  | cons p rest ih =>
    intro s
    cases p with
    | mk a v =>
      have h2 := ih (updateInst s r (fun i2 => { i2 with attrs := dictSet i2.attrs a v }))
      simpa [_restore_attrs, insts_length_updateInst] using h2

theorem restore_fields (r : Nat) (items : List (String × Value)) : ∀ s : Store,
    r < s.insts.length →
    (getInst (_restore_attrs s r items) r).cls = (getInst s r).cls ∧
    (getInst (_restore_attrs s r items) r).xOriginal = (getInst s r).xOriginal ∧
    (getInst (_restore_attrs s r items) r).xSynthetic = (getInst s r).xSynthetic := by
  induction items with
  | nil => exact fun s _ => ⟨rfl, rfl, rfl⟩
  | cons p rest ih =>
    intro s hr
    cases p with
    | mk a v =>
      have hr2 : r < (updateInst s r
          (fun i2 => { i2 with attrs := dictSet i2.attrs a v })).insts.length := by
        simpa [insts_length_updateInst] using hr
      have h2 := ih (updateInst s r (fun i2 => { i2 with attrs := dictSet i2.attrs a v })) hr2
      rw [getInst_updateInst_self _ _ _ hr] at h2
      simpa [_restore_attrs] using h2

theorem restore_attrs_get (r : Nat) (items : List (String × Value)) : ∀ s : Store,
    r < s.insts.length → (items.map Prod.fst).Nodup →
    ∀ name, dictGet (getInst (_restore_attrs s r items) r).attrs name =
      match dictGet items name with
      | some v => some v
      | Option.none => dictGet (getInst s r).attrs name := by
  induction items with
  | nil => intro s hr hnd name; simp [_restore_attrs, dictGet]
  | cons p rest ih =>
    intro s hr hnd name
    cases p with
    | mk a v =>
      have hr2 : r < (updateInst s r
          (fun i2 => { i2 with attrs := dictSet i2.attrs a v })).insts.length := by
        simpa [insts_length_updateInst] using hr
      have hnd2 : (rest.map Prod.fst).Nodup := (List.nodup_cons.mp (by simpa using hnd)).2
      have hna : a ∉ rest.map Prod.fst := (List.nodup_cons.mp (by simpa using hnd)).1
      simp only [_restore_attrs]
      rw [ih _ hr2 hnd2 name, getInst_updateInst_self _ _ _ hr]
      by_cases hn : name = a
      · subst hn
        have : dictGet rest name = (Option.none : Option Value) := by
          cases hg : dictGet rest name with
          | none => rfl
          | some w =>
            exact absurd ((dictGet_isSome_iff rest name).mp (by simp [hg])) hna
        simp [dictGet, this, dictGet_dictSet_self]
      · rw [dictGet_dictSet_ne _ _ _ _ hn]
        simp [dictGet, Ne.symm hn]

-- --- Behavior of the swapping operations

theorem original_class_of_some (s : Store) (r : Nat) (c : Cls)
    (h : (getInst s r).xOriginal = some c) : _original_class s r = c := by
  simp [_original_class, h]

theorem original_class_of_none (s : Store) (r : Nat)
    (h : (getInst s r).xOriginal = Option.none) : _original_class s r = (getInst s r).cls := by
  simp [_original_class, h]

theorem synAt_append_self (s : Store) (x : SynthData) :
    synAt { s with synths := s.synths ++ [x] } s.synths.length = x := by
  simp [synAt, List.getD_eq_getElem?_getD, List.getElem?_append_right]

theorem synAt_append_lt (s : Store) (x : SynthData) (k : Nat) (hk : k < s.synths.length) :
    synAt { s with synths := s.synths ++ [x] } k = synAt s k := by
  simp [synAt, List.getD_eq_getElem?_getD, List.getElem?_append, hk]

/-- Unfolding `_set_synthetic` when the stash is skipped and the recorded
synthetic class is already worn: a complete no-op. -/
theorem set_synthetic_noop (t : Store) (r : Nat) (c : Cls)
    (h1 : (getInst t r).xSynthetic = some c)
    (h2 : (getInst t r).cls = c)
    (h3 : ¬ (getInst t r).cls = _original_class t r) :
    _set_synthetic t r = (Except.ok (), t) := by
  have hdel : _delete_old_attrs t r = (Except.ok (), t) := by
    simp only [_delete_old_attrs, if_neg h3]
  have hupd : updateInst t r (fun i2 => { i2 with cls := c }) = t := by
    apply updateInst_preserves
    rw [← h2]
  simp only [_set_synthetic, hdel, h1, hupd]

/-- `force_synthetic_class` on an instance already wearing its synthetic
class (its current class differs from its original class) changes nothing. -/
theorem fsc_noop (s : Store) (r : Nat) (c : Cls)
    (h1 : (getInst s r).xSynthetic = some c)
    (h2 : (getInst s r).cls = c)
    (h3 : ¬ (getInst s r).cls = _original_class s r) :
    force_synthetic_class s r = (Except.ok c, s) := by
  have hne : ¬ (getInst s r).xSynthetic = Option.none := by simp [h1]
  simp only [force_synthetic_class, if_neg hne, set_synthetic_noop s r c h1 h2 h3, h2]

/-- `force_synthetic_class` on a not-yet-patched instance: a fresh synthetic
class is created and recorded and the instance starts wearing it; nothing is
stashed (the fresh bookkeeping dict is empty). -/
theorem fsc_fresh (s : Store) (r : Nat)
    (h1 : (getInst s r).xSynthetic = Option.none)
    (hr : r < s.insts.length)
    (hcls : ¬ (getInst s r).cls = Cls.synth s.synths.length) :
    force_synthetic_class s r =
      (Except.ok (Cls.synth s.synths.length),
       updateInst
         { s with synths := s.synths ++
             [{ base := (getInst s r).cls, bookeeping := [], descriptors := [] }] } r
         (fun i2 => { i2 with xSynthetic := some (Cls.synth s.synths.length),
                              xOriginal := some i2.cls,
                              cls := Cls.synth s.synths.length })) := by
  set S1 : Store := updateInst
      { s with synths := s.synths ++
          [{ base := (getInst s r).cls, bookeeping := [], descriptors := [] }] } r
      (fun i2 => { i2 with xSynthetic := some (Cls.synth s.synths.length),
                           xOriginal := some i2.cls,
                           cls := Cls.synth s.synths.length }) with hS1
  have hg1 : getInst S1 r = { getInst s r with
      xSynthetic := some (Cls.synth s.synths.length),
      xOriginal := some (getInst s r).cls,
      cls := Cls.synth s.synths.length } := by
    rw [hS1]
    exact getInst_updateInst_self _ r _ hr
  have hguard : ¬ ((getInst S1 r).cls = _original_class S1 r) := by
    rw [_original_class, hg1]
    exact fun hh => hcls hh.symm
  have hxs1 : (getInst S1 r).xSynthetic = some (Cls.synth s.synths.length) := by
    rw [hg1]
  have hcl1 : (getInst S1 r).cls = Cls.synth s.synths.length := by
    rw [hg1]
  have hset : _set_synthetic S1 r = (Except.ok (), S1) :=
    set_synthetic_noop S1 r (Cls.synth s.synths.length) hxs1 hcl1 hguard
  have hmain : force_synthetic_class s r = (Except.ok (getInst S1 r).cls, S1) := by
    simp only [force_synthetic_class, h1, if_pos, _create_synthetic_class, ← hS1, hset]
  rw [hmain, hcl1]

/-- `force_synthetic_class` on a patched instance currently wearing its
original class: the bookkept attributes are stashed off the instance and the
instance starts wearing its recorded synthetic class. -/
theorem fsc_stash (s : Store) (r k : Nat) (c0 : Cls)
    (ho : (getInst s r).xOriginal = some c0)
    (hs : (getInst s r).xSynthetic = some (Cls.synth k))
    (hc : (getInst s r).cls = c0)
    (hr : r < s.insts.length)
    (hk : k < s.synths.length) :
    force_synthetic_class s r =
      (Except.ok (Cls.synth k),
       updateInst (_stash_attrs s r k ((bkAt s k).map Prod.fst)) r
         (fun i2 => { i2 with cls := Cls.synth k })) := by
  have hne : ¬ (getInst s r).xSynthetic = Option.none := by simp [hs]
  have hguard : (getInst s r).cls = _original_class s r := by
    rw [original_class_of_some s r c0 ho, hc]
  have href : _bookkept_ref s r = Except.ok k := by
    simp only [_bookkept_ref, _synthetic_class, hs, if_pos hk]
  have hdel : _delete_old_attrs s r =
      (Except.ok (), _stash_attrs s r k ((bkAt s k).map Prod.fst)) := by
    simp only [_delete_old_attrs, if_pos hguard, href]
  set T0 : Store := _stash_attrs s r k ((bkAt s k).map Prod.fst) with hT0
  have hrT : r < T0.insts.length := by
    rw [hT0, (stash_shape r k _ s).1]
    exact hr
  have hxsT : (getInst T0 r).xSynthetic = some (Cls.synth k) := by
    rw [hT0, (stash_fields r k _ s hr).2.2, hs]
  set T1 : Store := updateInst T0 r (fun i2 => { i2 with cls := Cls.synth k }) with hT1
  have hfin : (getInst T1 r).cls = Cls.synth k := by
    rw [hT1, getInst_updateInst_self T0 r _ hrT]
  have hset : _set_synthetic s r = (Except.ok (), T1) := by
    simp only [_set_synthetic, hdel, hxsT, ← hT1]
  have hmain : force_synthetic_class s r = (Except.ok (getInst T1 r).cls, T1) := by
    simp only [force_synthetic_class, if_neg hne, hset]
  rw [hmain, hfin]

/-- `force_original_class` on a patched instance: the instance goes back to
wearing its recorded original class and the bookkept attributes are restored
onto it. -/
theorem foc_patched (s : Store) (r k : Nat) (c0 : Cls)
    (ho : (getInst s r).xOriginal = some c0)
    (hs : (getInst s r).xSynthetic = some (Cls.synth k))
    (hr : r < s.insts.length)
    (hk : k < s.synths.length) :
    force_original_class s r =
      (Except.ok c0,
       _restore_attrs (updateInst s r (fun i2 => { i2 with cls := c0 })) r (bkAt s k)) := by
  set s1 : Store := updateInst s r (fun i2 => { i2 with cls := c0 }) with hs1
  have hg1 : getInst s1 r = { getInst s r with cls := c0 } := by
    rw [hs1]
    exact getInst_updateInst_self s r _ hr
  have hr1 : r < s1.insts.length := by
    rw [hs1, insts_length_updateInst]
    exact hr
  have horig : _original_class s r = c0 := original_class_of_some s r c0 ho
  have horig1 : _original_class s1 r = c0 := by
    apply original_class_of_some
    rw [hg1]
    exact ho
  have hguard : (getInst s1 r).cls = _original_class s1 r := by
    rw [horig1, hg1]
  have hsyn1 : _synthetic_class s1 r = some (Cls.synth k) := by
    show (getInst s1 r).xSynthetic = _
    rw [hg1]
    exact hs
  have hklt1 : k < s1.synths.length := by
    rw [hs1, synths_updateInst]
    exact hk
  have href : _bookkept_ref s1 r = Except.ok k := by
    simp only [_bookkept_ref, hsyn1, if_pos hklt1]
  have hbk1 : bkAt s1 k = bkAt s k := by
    rw [hs1]
    exact bkAt_updateInst s r _ k
  have hattrs : _bookkept_attrs s1 r = Except.ok (bkAt s k) := by
    simp only [_bookkept_attrs, href, Except.map, hbk1]
  have hreset : _reset_old_attrs s1 r = (Except.ok (), _restore_attrs s1 r (bkAt s k)) := by
    simp only [_reset_old_attrs, if_pos hguard, hattrs]
  have hset : _set_original s r = (Except.ok (), _restore_attrs s1 r (bkAt s k)) := by
    simp only [_set_original, horig, ← hs1, hreset]
  set T : Store := _restore_attrs s1 r (bkAt s k) with hT
  have hclsT : (getInst T r).cls = c0 := by
    rw [hT]
    refine ((restore_fields r _ s1 hr1).1).trans ?_
    rw [hg1]
  have hmain : force_original_class s r = (Except.ok (getInst T r).cls, T) := by
    simp only [force_original_class, hset]
  rw [hmain, hclsT]

/-- `force_original_class` on an instance with no synthetic class: the
instance's class is set to its original class (the bookkeeping lookup's
`AttributeError` is swallowed, so nothing is restored). -/
theorem foc_unpatched (s : Store) (r : Nat)
    (hs : (getInst s r).xSynthetic = Option.none)
    (hr : r < s.insts.length) :
    force_original_class s r =
      (Except.ok (_original_class s r),
       updateInst s r (fun i2 => { i2 with cls := _original_class s r })) := by
  set s1 : Store := updateInst s r (fun i2 => { i2 with cls := _original_class s r }) with hs1
  have hg1 : getInst s1 r = { getInst s r with cls := _original_class s r } := by
    rw [hs1]
    exact getInst_updateInst_self s r _ hr
  have hguard : (getInst s1 r).cls = _original_class s1 r := by
    rw [_original_class]
    cases ho : (getInst s r).xOriginal with
    | none =>
      have hx : (getInst s1 r).xOriginal = Option.none := by
        rw [hg1]
        exact ho
      rw [hx, hg1]
    | some c =>
      have hx : (getInst s1 r).xOriginal = some c := by
        rw [hg1]
        exact ho
      rw [hx, hg1, original_class_of_some s r c ho]
  have hsyn1 : _synthetic_class s1 r = Option.none := by
    show (getInst s1 r).xSynthetic = _
    rw [hg1]
    exact hs
  have hattrs : _bookkept_attrs s1 r =
      Except.error (PyErr.attributeError "NoneType object has no attribute bookeeping") := by
    simp only [_bookkept_attrs, _bookkept_ref, hsyn1, Except.map]
  have hreset : _reset_old_attrs s1 r =
      (Except.error (PyErr.attributeError "NoneType object has no attribute bookeeping"), s1) := by
    simp only [_reset_old_attrs, if_pos hguard, hattrs]
  have hset : _set_original s r =
      (Except.error (PyErr.attributeError "NoneType object has no attribute bookeeping"), s1) := by
    simp only [_set_original, ← hs1, hreset]
  have hcl1 : (getInst s1 r).cls = _original_class s r := by
    rw [hg1]
  have hmain : force_original_class s r = (Except.ok (getInst s1 r).cls, s1) := by
    simp only [force_original_class, hset]
  rw [hmain, hcl1]

-- --- Descriptor-lookup helpers

theorem lookupDescriptor_hit (s : Store) (k : Nat) (name : String) (sd : SynthData) (dref : Nat)
    (hsd : s.synths[k]? = some sd) (hx : dictGet sd.descriptors name = some dref) :
    lookupDescriptor s (Cls.synth k) name = some dref := by
  show lookupDescriptorAux s (s.synths.length + 1) (Cls.synth k) name = some dref
  simp only [lookupDescriptorAux, hsd, hx]

theorem updateDesc_getElem (s : Store) (dref : Nat) (f : Descriptor → Descriptor) (d : Descriptor)
    (hd : s.descs[dref]? = some d) :
    (updateDesc s dref f).descs[dref]? = some (f d) := by
  have hlt : dref < s.descs.length := (List.getElem?_eq_some.mp hd).1
  have hgetD : s.descs.getD dref { on_set := "pass", kind := DescKind.retrievable } = d := by
    simp [List.getD_eq_getElem?_getD, hd]
  show (s.descs.set dref _)[dref]? = _
  rw [hgetD]
  simp [List.getElem?_set_self', List.getElem?_eq_getElem hlt]

-- --- Claims

/-- C5: constructing any of the framework's descriptors
(`RetrievableDescriptor`, `MemberView`, `ControlledSetter`) with a write
policy outside the recognized set `pass`/`fail`/`set` fails with
`InvalidPolicyError`, and construction with a recognized policy succeeds. -/
theorem C5_policy_validation (policy : String) (val : Value) (obj : Nat) (param : String) :
    (valid_on_set.contains policy = false →
      (RetrievableDescriptor_init policy = Except.error InvalidPolicyError ∧
       MemberView_init obj param policy = Except.error InvalidPolicyError ∧
       ControlledSetter_init val policy = Except.error InvalidPolicyError)) ∧
    (valid_on_set.contains policy = true →
      (RetrievableDescriptor_init policy = Except.ok policy ∧
       MemberView_init obj param policy =
         Except.ok { on_set := policy, kind := DescKind.memberView obj param } ∧
       ControlledSetter_init val policy =
         Except.ok { on_set := policy, kind := DescKind.controlledSetter val })) := by
  constructor
  · intro h
    have hmem : policy ∉ valid_on_set := by simpa using h
    have hbase : RetrievableDescriptor_init policy = Except.error InvalidPolicyError := by
      simp [RetrievableDescriptor_init, hmem, InvalidPolicyError]
    refine ⟨hbase, ?_, ?_⟩
    · simp [MemberView_init, hbase, Except.map]
    · simp [ControlledSetter_init, hbase, Except.map]
  · intro h
    have hmem : policy ∈ valid_on_set := by simpa using h
    have hbase : RetrievableDescriptor_init policy = Except.ok policy := by
      simp [RetrievableDescriptor_init, hmem]
    refine ⟨hbase, ?_, ?_⟩
    · simp [MemberView_init, hbase, Except.map]
    · simp [ControlledSetter_init, hbase, Except.map]

theorem C5_policy_validation_witness :
    (valid_on_set.contains "frobnicate" = false ∧
     RetrievableDescriptor_init "frobnicate" = Except.error InvalidPolicyError) ∧
    (valid_on_set.contains "pass" = true ∧
     RetrievableDescriptor_init "pass" = Except.ok "pass") :=
  ⟨⟨by decide, ((C5_policy_validation "frobnicate" Value.pynone 0 "p").1 (by decide)).1⟩,
   ⟨by decide, ((C5_policy_validation "pass" Value.pynone 0 "p").2 (by decide)).1⟩⟩

/-- C6: `get_bookkeeping` (`_bookkept_attrs`) on an instance with no
synthetic class fails with `NoSyntheticTypeError` (the error is returned to
the caller, not swallowed); on an instance with a synthetic class it returns
that class's bookkeeping dict. -/
theorem C6_get_bookkeeping (s : Store) (r : Nat) :
    (_synthetic_class s r = Option.none →
      _bookkept_attrs s r = Except.error NoSyntheticTypeError) ∧
    (∀ k sd, _synthetic_class s r = some (Cls.synth k) → s.synths[k]? = some sd →
      _bookkept_attrs s r = Except.ok sd.bookeeping) := by
  constructor
  · intro h
    simp [_bookkept_attrs, _bookkept_ref, h, NoSyntheticTypeError, Except.map]
  · intro k sd h1 h2
    have hk : k < s.synths.length := (List.getElem?_eq_some.mp h2).1
    have hbk : bkAt s k = sd.bookeeping := by
      simp [bkAt, synAt, List.getD_eq_getElem?_getD, h2]
    simp [_bookkept_attrs, _bookkept_ref, h1, hk, Except.map, hbk]

theorem C6_get_bookkeeping_witness :
    (_synthetic_class sUnpatchedDemo 0 = Option.none ∧
     _bookkept_attrs sUnpatchedDemo 0 = Except.error NoSyntheticTypeError) ∧
    (_synthetic_class sPatchedDemo 0 = some (Cls.synth 0) ∧
     _bookkept_attrs sPatchedDemo 0 = Except.ok [("a", Value.int 1)]) :=
  ⟨⟨by decide, (C6_get_bookkeeping sUnpatchedDemo 0).1 (by decide)⟩,
   ⟨by decide,
    (C6_get_bookkeeping sPatchedDemo 0).2 0
      { base := Cls.orig 0, bookeeping := [("a", Value.int 1)], descriptors := [] }
      (by decide) (by decide)⟩⟩

/-- C9: for every descriptor object and every owner type, a read through the
type itself (`instance is None`) returns the descriptor object unchanged and
never invokes the read hook — in particular it succeeds even for the abstract
base descriptor, whose read hook always raises; the hook fires only for reads
through an instance. -/
theorem C9_class_access_returns_descriptor (s : Store) (dref : Nat) (d : Descriptor) (owner : Cls)
    (hd : s.descs[dref]? = some d) :
    descGet s dref Option.none owner = Except.ok (PyVal.descRef dref) ∧
    (d.kind = DescKind.retrievable →
      ∀ iref, descGet s dref (some iref) owner = Except.error PyErr.notImplementedError) := by
  constructor
  · simp only [descGet, hd]
  · intro hk iref
    simp only [descGet, hd, _get_hook, hk, Except.map]

theorem C9_class_access_returns_descriptor_witness :
    sDescDemo.descs[1]? = some { on_set := "pass", kind := DescKind.retrievable } ∧
    (descGet sDescDemo 1 Option.none (Cls.orig 0) = Except.ok (PyVal.descRef 1) ∧
     (({ on_set := "pass", kind := DescKind.retrievable } : Descriptor).kind
        = DescKind.retrievable →
      ∀ iref, descGet sDescDemo 1 (some iref) (Cls.orig 0)
        = Except.error PyErr.notImplementedError)) :=
  ⟨by decide,
   C9_class_access_returns_descriptor sDescDemo 1
     { on_set := "pass", kind := DescKind.retrievable } (Cls.orig 0) (by decide)⟩

/-- C4: with a reject-policy (`on_set = 'fail'`) `ControlledSetter` holding
`v` installed under name `x` on the synthetic class the instance wears,
reading `x` through the instance returns `v`; any write raises
`ReadOnlyError` and leaves the store untouched; and reading afterwards still
returns `v`. -/
theorem C4_reject_policy_controlled_setter (s : Store) (r dref k : Nat) (x : String)
    (v w : Value) (sd : SynthData)
    (hd : s.descs[dref]? = some { on_set := "fail", kind := DescKind.controlledSetter v })
    (hcls : (getInst s r).cls = Cls.synth k)
    (hsd : s.synths[k]? = some sd)
    (hx : dictGet sd.descriptors x = some dref) :
    instGetattr s r x = Except.ok (PyVal.val v) ∧
    instSetattr s r x w = (Except.error ReadOnlyError, s) ∧
    instGetattr (instSetattr s r x w).2 r x = Except.ok (PyVal.val v) := by
  have hlook : lookupDescriptor s (Cls.synth k) x = some dref :=
    lookupDescriptor_hit s k x sd dref hsd hx
  have hget : instGetattr s r x = Except.ok (PyVal.val v) := by
    simp only [instGetattr, hcls, hlook, descGet, hd, _get_hook, Except.map]
  have hset : instSetattr s r x w = (Except.error ReadOnlyError, s) := by
    simp [instSetattr, hcls, hlook, descSet, hd, ReadOnlyError]
  refine ⟨hget, hset, ?_⟩
  rw [hset]
  exact hget

theorem C4_reject_policy_controlled_setter_witness :
    (getInst sDescDemo 0).cls = Cls.synth 0 ∧
    (instGetattr sDescDemo 0 "x" = Except.ok (PyVal.val (Value.int 7)) ∧
     instSetattr sDescDemo 0 "x" (Value.int 9) = (Except.error ReadOnlyError, sDescDemo) ∧
     instGetattr (instSetattr sDescDemo 0 "x" (Value.int 9)).2 0 "x"
        = Except.ok (PyVal.val (Value.int 7))) :=
  ⟨by decide,
   C4_reject_policy_controlled_setter sDescDemo 0 0 0 "x" (Value.int 7) (Value.int 9)
     { base := Cls.orig 0, bookeeping := [], descriptors := [("x", 0)] }
     (by decide) (by decide) (by decide) (by decide)⟩

/-- C10: a `ControlledSetter` stores its held value on the descriptor object
itself.  When one and the same apply-policy (`on_set = 'set'`) descriptor
object is installed (under any names) on the synthetic classes worn by two
different instances, a write through one instance is visible through the
other. -/
theorem C10_shared_descriptor_state (s : Store) (i j dref ki kj : Nat) (n1 n2 : String)
    (v w : Value) (sdi sdj : SynthData)
    (hd : s.descs[dref]? = some { on_set := "set", kind := DescKind.controlledSetter v })
    (hi : (getInst s i).cls = Cls.synth ki)
    (hsdi : s.synths[ki]? = some sdi)
    (hn1 : dictGet sdi.descriptors n1 = some dref)
    (hj : (getInst s j).cls = Cls.synth kj)
    (hsdj : s.synths[kj]? = some sdj)
    (hn2 : dictGet sdj.descriptors n2 = some dref) :
    (instSetattr s i n1 w).1 = Except.ok () ∧
    instGetattr (instSetattr s i n1 w).2 j n2 = Except.ok (PyVal.val w) ∧
    instGetattr (instSetattr s i n1 w).2 i n1 = Except.ok (PyVal.val w) := by
  have hlooki : lookupDescriptor s (Cls.synth ki) n1 = some dref :=
    lookupDescriptor_hit s ki n1 sdi dref hsdi hn1
  have hsetr : instSetattr s i n1 w =
      (Except.ok (), updateDesc s dref (fun dd => { dd with kind := DescKind.controlledSetter w })) := by
    simp [instSetattr, hi, hlooki, descSet, hd, _set_hook]
  have hd2 : (updateDesc s dref
        (fun dd => { dd with kind := DescKind.controlledSetter w })).descs[dref]?
      = some { on_set := "set", kind := DescKind.controlledSetter w } :=
    updateDesc_getElem s dref _ _ hd
  have hlookj2 : lookupDescriptor
      (updateDesc s dref (fun dd => { dd with kind := DescKind.controlledSetter w }))
      (Cls.synth kj) n2 = some dref :=
    lookupDescriptor_hit _ kj n2 sdj dref hsdj hn2
  have hlooki2 : lookupDescriptor
      (updateDesc s dref (fun dd => { dd with kind := DescKind.controlledSetter w }))
      (Cls.synth ki) n1 = some dref :=
    lookupDescriptor_hit _ ki n1 sdi dref hsdi hn1
  have hgetj : instGetattr
      (updateDesc s dref (fun dd => { dd with kind := DescKind.controlledSetter w })) j n2
      = Except.ok (PyVal.val w) := by
    have hjc : (getInst (updateDesc s dref
        (fun dd => { dd with kind := DescKind.controlledSetter w })) j).cls = Cls.synth kj := hj
    simp only [instGetattr, hjc, hlookj2, descGet, hd2, _get_hook, Except.map]
  have hgeti : instGetattr
      (updateDesc s dref (fun dd => { dd with kind := DescKind.controlledSetter w })) i n1
      = Except.ok (PyVal.val w) := by
    have hic : (getInst (updateDesc s dref
        (fun dd => { dd with kind := DescKind.controlledSetter w })) i).cls = Cls.synth ki := hi
    simp only [instGetattr, hic, hlooki2, descGet, hd2, _get_hook, Except.map]
  refine ⟨?_, ?_, ?_⟩
  · rw [hsetr]
  · rw [hsetr]
    exact hgetj
  · rw [hsetr]
    exact hgeti

theorem C10_shared_descriptor_state_witness :
    sSharedDemo.descs[0]?
      = some { on_set := "set", kind := DescKind.controlledSetter (Value.int 1) } ∧
    ((instSetattr sSharedDemo 0 "x" (Value.int 3)).1 = Except.ok () ∧
     instGetattr (instSetattr sSharedDemo 0 "x" (Value.int 3)).2 1 "y"
        = Except.ok (PyVal.val (Value.int 3)) ∧
     instGetattr (instSetattr sSharedDemo 0 "x" (Value.int 3)).2 0 "x"
        = Except.ok (PyVal.val (Value.int 3))) :=
  ⟨by decide,
   C10_shared_descriptor_state sSharedDemo 0 1 0 0 1 "x" "y" (Value.int 1) (Value.int 3)
     { base := Cls.orig 0, bookeeping := [], descriptors := [("x", 0)] }
     { base := Cls.orig 1, bookeeping := [], descriptors := [("y", 0)] }
     (by decide) (by decide) (by decide) (by decide) (by decide) (by decide) (by decide)⟩

/-- C1: the three scoped-toggle context managers do NOT restore the pre-scope
state when the wrapped body raises: the generators have no `try/finally`
around the `yield`, so `contextlib` throws the body's exception into the
generator and the restoration loop after the `yield` never runs.  Evaluated
here on concrete failing inputs: the original-scope and forget-scope leave a
patched instance in original state (and the forget-scope loses the
synthetic-class reference), and the synthetic-scope leaves an unpatched
instance in synthetic state, contradicting the claimed guaranteed
restoration. -/
theorem C1_scoped_restore_skipped_on_error :
    ((original_cm_run false 0 [] bodyRaise sSyntheticDemo).1
        = Except.error (PyErr.exception "boom") ∧
     (getInst (original_cm_run false 0 [] bodyRaise sSyntheticDemo).2 0).cls = Cls.orig 0 ∧
     ¬ (getInst (original_cm_run false 0 [] bodyRaise sSyntheticDemo).2 0).cls
        = (getInst sSyntheticDemo 0).cls) ∧
    ((original_cm_run true 0 [] bodyRaise sSyntheticDemo).1
        = Except.error (PyErr.exception "boom") ∧
     (getInst (original_cm_run true 0 [] bodyRaise sSyntheticDemo).2 0).xSynthetic
        = Option.none ∧
     ¬ (getInst (original_cm_run true 0 [] bodyRaise sSyntheticDemo).2 0).cls
        = (getInst sSyntheticDemo 0).cls) ∧
    ((synthetic_class_run 0 [] bodyRaise sUnpatchedDemo).1
        = Except.error (PyErr.exception "boom") ∧
     (getInst (synthetic_class_run 0 [] bodyRaise sUnpatchedDemo).2 0).cls = Cls.synth 0 ∧
     ¬ (getInst (synthetic_class_run 0 [] bodyRaise sUnpatchedDemo).2 0).cls
        = (getInst sUnpatchedDemo 0).cls) := by
  decide

-- --- Well-formedness elimination and round-trip lemmas

theorem instWF_elim (s : Store) (r : Nat) (h : instWF s r = true) :
    r < s.insts.length ∧
    (((getInst s r).xOriginal = Option.none ∧ (getInst s r).xSynthetic = Option.none ∧
        ∃ m, (getInst s r).cls = Cls.orig m) ∨
     (∃ j, (getInst s r).xOriginal = some (Cls.orig j) ∧
        (getInst s r).xSynthetic = Option.none ∧ (getInst s r).cls = Cls.orig j) ∨
     (∃ j k, (getInst s r).xOriginal = some (Cls.orig j) ∧
        (getInst s r).xSynthetic = some (Cls.synth k) ∧ k < s.synths.length ∧
        ((getInst s r).cls = Cls.orig j ∨ (getInst s r).cls = Cls.synth k) ∧
        ((bkAt s k).map Prod.fst).Nodup)) := by
  unfold instWF at h
  rw [Bool.and_eq_true] at h
  obtain ⟨h1, h2⟩ := h
  refine ⟨by simpa using h1, ?_⟩
  cases ho : (getInst s r).xOriginal with
  | none =>
    rw [ho] at h2
    cases hsyn : (getInst s r).xSynthetic with
    | none =>
      rw [hsyn] at h2
      cases hc : (getInst s r).cls with
      | orig m => exact Or.inl ⟨rfl, rfl, m, rfl⟩
      | synth k =>
        rw [hc] at h2
        simp at h2
    | some c =>
      rw [hsyn] at h2
      cases c <;> simp at h2
  | some c =>
    rw [ho] at h2
    cases c with
    | synth j => simp at h2
    | orig j =>
      cases hsyn : (getInst s r).xSynthetic with
      | none =>
        rw [hsyn] at h2
        have hc : (getInst s r).cls = Cls.orig j := by simpa using h2
        exact Or.inr (Or.inl ⟨j, rfl, rfl, hc⟩)
      | some c2 =>
        rw [hsyn] at h2
        cases c2 with
        | orig j2 => simp at h2
        | synth k =>
          simp only [Bool.and_eq_true, Bool.or_eq_true, beq_iff_eq, decide_eq_true_eq] at h2
          exact Or.inr (Or.inr ⟨j, k, rfl, rfl, h2.1.1, h2.1.2, h2.2⟩)

/-- Round trip through a freshly created synthetic class: `force_synthetic_class`
followed by `force_original_class` returns the instance to its pre-patch class
with its attributes untouched (the fresh bookkeeping dict is empty). -/
theorem roundtrip_fresh (s : Store) (r : Nat)
    (h1 : (getInst s r).xSynthetic = Option.none)
    (hr : r < s.insts.length)
    (hcls : ¬ (getInst s r).cls = Cls.synth s.synths.length) :
    (force_synthetic_class s r).1 = Except.ok (Cls.synth s.synths.length) ∧
    (getInst (force_synthetic_class s r).2 r).cls = Cls.synth s.synths.length ∧
    (getInst (force_synthetic_class s r).2 r).xSynthetic
        = some (Cls.synth s.synths.length) ∧
    _original_class (force_synthetic_class s r).2 r = (getInst s r).cls ∧
    (force_original_class (force_synthetic_class s r).2 r).1
        = Except.ok ((getInst s r).cls) ∧
    (getInst (force_original_class (force_synthetic_class s r).2 r).2 r).cls
        = (getInst s r).cls ∧
    ∀ name,
      dictGet (getInst (force_original_class (force_synthetic_class s r).2 r).2 r).attrs name
        = dictGet (getInst s r).attrs name := by
  have hfsc := fsc_fresh s r h1 hr hcls
  rw [hfsc]
  set S1 : Store := updateInst
      { s with synths := s.synths ++
          [{ base := (getInst s r).cls, bookeeping := [], descriptors := [] }] } r
      (fun i2 => { i2 with xSynthetic := some (Cls.synth s.synths.length),
                           xOriginal := some i2.cls,
                           cls := Cls.synth s.synths.length }) with hS1
  show (Except.ok (Cls.synth s.synths.length) : Except PyErr Cls)
        = Except.ok (Cls.synth s.synths.length) ∧
      (getInst S1 r).cls = Cls.synth s.synths.length ∧
      (getInst S1 r).xSynthetic = some (Cls.synth s.synths.length) ∧
      _original_class S1 r = (getInst s r).cls ∧
      (force_original_class S1 r).1 = Except.ok ((getInst s r).cls) ∧
      (getInst (force_original_class S1 r).2 r).cls = (getInst s r).cls ∧
      ∀ name, dictGet (getInst (force_original_class S1 r).2 r).attrs name
        = dictGet (getInst s r).attrs name
  have hg1 : getInst S1 r = { getInst s r with
      xSynthetic := some (Cls.synth s.synths.length),
      xOriginal := some (getInst s r).cls,
      cls := Cls.synth s.synths.length } := by
    rw [hS1]
    exact getInst_updateInst_self _ r _ hr
  have hr1 : r < S1.insts.length := by
    rw [hS1, insts_length_updateInst]
    exact hr
  have ho1 : (getInst S1 r).xOriginal = some ((getInst s r).cls) := by rw [hg1]
  have hs1x : (getInst S1 r).xSynthetic = some (Cls.synth s.synths.length) := by rw [hg1]
  have hk1 : s.synths.length < S1.synths.length := by
    rw [hS1, synths_updateInst]
    simp
  have horig1 : _original_class S1 r = (getInst s r).cls :=
    original_class_of_some S1 r _ ho1
  have hfoc := foc_patched S1 r s.synths.length ((getInst s r).cls) ho1 hs1x hr1 hk1
  have hbkS1 : bkAt S1 s.synths.length = [] := by
    rw [hS1, bkAt_updateInst]
    show (synAt { s with synths := s.synths ++
        [{ base := (getInst s r).cls, bookeeping := [], descriptors := [] }] }
        s.synths.length).bookeeping = []
    rw [synAt_append_self]
  rw [hbkS1] at hfoc
  rw [hfoc]
  set U : Store := updateInst S1 r (fun i2 => { i2 with cls := (getInst s r).cls }) with hU
  show _ ∧ _ ∧ _ ∧ _ ∧ _ ∧ (getInst U r).cls = (getInst s r).cls ∧
      ∀ name, dictGet (getInst U r).attrs name = dictGet (getInst s r).attrs name
  have hgU : getInst U r = { getInst S1 r with cls := (getInst s r).cls } := by
    rw [hU]
    exact getInst_updateInst_self S1 r _ hr1
  have hclsU : (getInst U r).cls = (getInst s r).cls := by rw [hgU]
  have hattrsU : (getInst U r).attrs = (getInst s r).attrs := by rw [hgU, hg1]
  exact ⟨rfl, by rw [hg1], hs1x, horig1, rfl, hclsU, fun name => by rw [hattrsU]⟩

/-- Round trip through an existing synthetic class: the stash performed by
`force_synthetic_class` is exactly undone by the restore performed by
`force_original_class`. -/
theorem roundtrip_stash (s : Store) (r k j : Nat)
    (ho : (getInst s r).xOriginal = some (Cls.orig j))
    (hsx : (getInst s r).xSynthetic = some (Cls.synth k))
    (hc : (getInst s r).cls = Cls.orig j)
    (hr : r < s.insts.length)
    (hk : k < s.synths.length)
    (hnd : ((bkAt s k).map Prod.fst).Nodup)
    (hkeys : ∀ a ∈ (bkAt s k).map Prod.fst, (dictGet (getInst s r).attrs a).isSome = true) :
    (force_synthetic_class s r).1 = Except.ok (Cls.synth k) ∧
    (getInst (force_synthetic_class s r).2 r).cls = Cls.synth k ∧
    (getInst (force_synthetic_class s r).2 r).xSynthetic = some (Cls.synth k) ∧
    _original_class (force_synthetic_class s r).2 r = (getInst s r).cls ∧
    (force_original_class (force_synthetic_class s r).2 r).1
        = Except.ok ((getInst s r).cls) ∧
    (getInst (force_original_class (force_synthetic_class s r).2 r).2 r).cls
        = (getInst s r).cls ∧
    ∀ name,
      dictGet (getInst (force_original_class (force_synthetic_class s r).2 r).2 r).attrs name
        = dictGet (getInst s r).attrs name := by
  have hfsc := fsc_stash s r k (Cls.orig j) ho hsx hc hr hk
  rw [hfsc]
  set keys : List String := (bkAt s k).map Prod.fst with hkeysdef
  set T0 : Store := _stash_attrs s r k keys with hT0
  set T1 : Store := updateInst T0 r (fun i2 => { i2 with cls := Cls.synth k }) with hT1
  show (Except.ok (Cls.synth k) : Except PyErr Cls) = Except.ok (Cls.synth k) ∧
      (getInst T1 r).cls = Cls.synth k ∧
      (getInst T1 r).xSynthetic = some (Cls.synth k) ∧
      _original_class T1 r = (getInst s r).cls ∧
      (force_original_class T1 r).1 = Except.ok ((getInst s r).cls) ∧
      (getInst (force_original_class T1 r).2 r).cls = (getInst s r).cls ∧
      ∀ name, dictGet (getInst (force_original_class T1 r).2 r).attrs name
        = dictGet (getInst s r).attrs name
  have hrT0 : r < T0.insts.length := by
    rw [hT0, (stash_shape r k keys s).1]
    exact hr
  have hkT0 : k < T0.synths.length := by
    rw [hT0, (stash_shape r k keys s).2.1]
    exact hk
  have hfieldsT0 := stash_fields r k keys s hr
  have hg1 : getInst T1 r = { getInst T0 r with cls := Cls.synth k } := by
    rw [hT1]
    exact getInst_updateInst_self T0 r _ hrT0
  have hrT1 : r < T1.insts.length := by
    rw [hT1, insts_length_updateInst]
    exact hrT0
  have hkT1 : k < T1.synths.length := by
    rw [hT1, synths_updateInst]
    exact hkT0
  have hoT1 : (getInst T1 r).xOriginal = some (Cls.orig j) := by
    rw [hg1]
    show (getInst T0 r).xOriginal = _
    rw [hfieldsT0.2.1, ho]
  have hsT1 : (getInst T1 r).xSynthetic = some (Cls.synth k) := by
    rw [hg1]
    show (getInst T0 r).xSynthetic = _
    rw [hfieldsT0.2.2, hsx]
  have hclT1 : (getInst T1 r).cls = Cls.synth k := by rw [hg1]
  have horigT1 : _original_class T1 r = (getInst s r).cls := by
    rw [original_class_of_some T1 r _ hoT1, hc]
  have hfoc := foc_patched T1 r k (Cls.orig j) hoT1 hsT1 hrT1 hkT1
  have hbkT1 : bkAt T1 k = bkAt T0 k := by
    rw [hT1, bkAt_updateInst]
  rw [hbkT1] at hfoc
  rw [hfoc]
  set V : Store := updateInst T1 r (fun i2 => { i2 with cls := Cls.orig j }) with hV
  set U : Store := _restore_attrs V r (bkAt T0 k) with hU
  show _ ∧ _ ∧ _ ∧ _ ∧
      (Except.ok (Cls.orig j) : Except PyErr Cls) = Except.ok ((getInst s r).cls) ∧
      (getInst U r).cls = (getInst s r).cls ∧
      ∀ name, dictGet (getInst U r).attrs name = dictGet (getInst s r).attrs name
  have hgV : getInst V r = { getInst T1 r with cls := Cls.orig j } := by
    rw [hV]
    exact getInst_updateInst_self T1 r _ hrT1
  have hrV : r < V.insts.length := by
    rw [hV, insts_length_updateInst]
    exact hrT1
  have hkeysT0 : (bkAt T0 k).map Prod.fst = keys := by
    rw [hT0]
    exact stash_bk_keys r k keys s hr hk (fun a ha => ha)
  have hndT0 : ((bkAt T0 k).map Prod.fst).Nodup := by
    rw [hkeysT0]
    exact hnd
  have hattrsV : (getInst V r).attrs = (getInst T0 r).attrs := by
    rw [hgV, hg1]
  have hrestore := restore_attrs_get r (bkAt T0 k) V hrV hndT0
  have hfinal : ∀ name, dictGet (getInst U r).attrs name
      = dictGet (getInst s r).attrs name := by
    intro name
    rw [hU, hrestore name]
    have hstashattrs : dictGet (getInst V r).attrs name =
        if name ∈ keys then Option.none else dictGet (getInst s r).attrs name := by
      rw [hattrsV, hT0]
      exact stash_attrs_get r k keys s hr name
    have hstashbk : dictGet (bkAt T0 k) name =
        if name ∈ keys ∧ (dictGet (getInst s r).attrs name).isSome = true
        then dictGet (getInst s r).attrs name
        else dictGet (bkAt s k) name := by
      rw [hT0]
      exact stash_bk_get r k keys s hr hk name
    by_cases hm : name ∈ keys
    · have hsome : (dictGet (getInst s r).attrs name).isSome = true := hkeys name hm
      rw [hstashbk, if_pos ⟨hm, hsome⟩]
      obtain ⟨w, hw⟩ := Option.isSome_iff_exists.mp hsome
      rw [hw]
    · have hbknone : dictGet (bkAt s k) name = Option.none := by
        cases hbg : dictGet (bkAt s k) name with
        | none => rfl
        | some w =>
          exact absurd ((dictGet_isSome_iff (bkAt s k) name).mp (by simp [hbg])) hm
      rw [hstashbk, if_neg (fun hcontra => hm hcontra.1), hbknone, hstashattrs, if_neg hm]
  have hclsU : (getInst U r).cls = (getInst s r).cls := by
    rw [hU, (restore_fields r (bkAt T0 k) V hrV).1, hgV, hc]
  exact ⟨rfl, hclT1, hsT1, horigT1, by rw [hc], hclsU, hfinal⟩

/-- The facts about `force_synthetic_class` on a patched instance wearing its
original class that do not depend on the bookkept names being present. -/
theorem roundtrip_stash_free (s : Store) (r k j : Nat)
    (ho : (getInst s r).xOriginal = some (Cls.orig j))
    (hsx : (getInst s r).xSynthetic = some (Cls.synth k))
    (hc : (getInst s r).cls = Cls.orig j)
    (hr : r < s.insts.length)
    (hk : k < s.synths.length) :
    (force_synthetic_class s r).1 = Except.ok (Cls.synth k) ∧
    (getInst (force_synthetic_class s r).2 r).cls = Cls.synth k ∧
    (getInst (force_synthetic_class s r).2 r).xSynthetic = some (Cls.synth k) ∧
    (_original_class (force_synthetic_class s r).2 r = (getInst s r).cls ∧ True) := by
  have hfsc := fsc_stash s r k (Cls.orig j) ho hsx hc hr hk
  rw [hfsc]
  set keys : List String := (bkAt s k).map Prod.fst with hkeysdef
  set T0 : Store := _stash_attrs s r k keys with hT0
  set T1 : Store := updateInst T0 r (fun i2 => { i2 with cls := Cls.synth k }) with hT1
  show (Except.ok (Cls.synth k) : Except PyErr Cls) = Except.ok (Cls.synth k) ∧
      (getInst T1 r).cls = Cls.synth k ∧
      (getInst T1 r).xSynthetic = some (Cls.synth k) ∧
      (_original_class T1 r = (getInst s r).cls ∧ True)
  have hrT0 : r < T0.insts.length := by
    rw [hT0, (stash_shape r k keys s).1]
    exact hr
  have hfieldsT0 := stash_fields r k keys s hr
  have hg1 : getInst T1 r = { getInst T0 r with cls := Cls.synth k } := by
    rw [hT1]
    exact getInst_updateInst_self T0 r _ hrT0
  have hoT1 : (getInst T1 r).xOriginal = some (Cls.orig j) := by
    rw [hg1]
    show (getInst T0 r).xOriginal = _
    rw [hfieldsT0.2.1, ho]
  have hsT1 : (getInst T1 r).xSynthetic = some (Cls.synth k) := by
    rw [hg1]
    show (getInst T0 r).xSynthetic = _
    rw [hfieldsT0.2.2, hsx]
  have horigT1 : _original_class T1 r = (getInst s r).cls := by
    rw [original_class_of_some T1 r _ hoT1, hc]
  exact ⟨rfl, by rw [hg1], hsT1, horigT1, trivial⟩

/-- C2: for every well-formed instance currently wearing its original class
(with every bookkept name present among its attributes, as the library's own
restore paths guarantee in original state), `force_synthetic_class` followed
by `force_original_class` succeeds and returns the instance to its pre-patch
effective type with every attribute value unchanged: the stash is exactly
undone by the restore. -/
theorem C2_force_synthetic_then_original_roundtrip (s : Store) (r : Nat)
    (hwf : instWF s r = true)
    (horig : (getInst s r).cls = _original_class s r)
    (hkeys : ∀ a ∈ bkKeys s r, (dictGet (getInst s r).attrs a).isSome = true) :
    (∃ c, (force_synthetic_class s r).1 = Except.ok c) ∧
    (getInst (force_original_class (force_synthetic_class s r).2 r).2 r).cls
        = (getInst s r).cls ∧
    ∀ name,
      dictGet (getInst (force_original_class (force_synthetic_class s r).2 r).2 r).attrs name
        = dictGet (getInst s r).attrs name := by
  obtain ⟨hr, hshape⟩ := instWF_elim s r hwf
  rcases hshape with ⟨ho, hsyn, m, hc⟩ | ⟨j, ho, hsyn, hc⟩ | ⟨j, k, ho, hsyn, hk, hcor, hnd⟩
  · have hcls : ¬ (getInst s r).cls = Cls.synth s.synths.length := by
      rw [hc]
      exact fun hh => Cls.noConfusion hh
    have R := roundtrip_fresh s r hsyn hr hcls
    exact ⟨⟨_, R.1⟩, R.2.2.2.2.2.1, R.2.2.2.2.2.2⟩
  · have hcls : ¬ (getInst s r).cls = Cls.synth s.synths.length := by
      rw [hc]
      exact fun hh => Cls.noConfusion hh
    have R := roundtrip_fresh s r hsyn hr hcls
    exact ⟨⟨_, R.1⟩, R.2.2.2.2.2.1, R.2.2.2.2.2.2⟩
  · have hc : (getInst s r).cls = Cls.orig j := by
      rw [horig, original_class_of_some s r _ ho]
    have hbkkeys : bkKeys s r = (bkAt s k).map Prod.fst := by
      simp [bkKeys, _synthetic_class, hsyn]
    rw [hbkkeys] at hkeys
    have R := roundtrip_stash s r k j ho hsyn hc hr hk hnd hkeys
    exact ⟨⟨_, R.1⟩, R.2.2.2.2.2.1, R.2.2.2.2.2.2⟩

theorem C2_force_synthetic_then_original_roundtrip_witness :
    (instWF sPatchedDemo 0 = true ∧
     (getInst sPatchedDemo 0).cls = _original_class sPatchedDemo 0 ∧
     ∀ a ∈ bkKeys sPatchedDemo 0,
       (dictGet (getInst sPatchedDemo 0).attrs a).isSome = true) ∧
    ((∃ c, (force_synthetic_class sPatchedDemo 0).1 = Except.ok c) ∧
     (getInst (force_original_class (force_synthetic_class sPatchedDemo 0).2 0).2 0).cls
        = (getInst sPatchedDemo 0).cls ∧
     ∀ name,
       dictGet
         (getInst (force_original_class (force_synthetic_class sPatchedDemo 0).2 0).2 0).attrs
         name
        = dictGet (getInst sPatchedDemo 0).attrs name) :=
  ⟨⟨by decide, by decide, by decide⟩,
   C2_force_synthetic_then_original_roundtrip sPatchedDemo 0 (by decide) (by decide) (by decide)⟩

/-- C3: `force_synthetic_class` is idempotent on every well-formed instance:
the second consecutive call returns the same class and leaves the entire
store (instance, effective type and bookkeeping contents included) exactly as
the first call left it. -/
theorem C3_force_synthetic_idempotent (s : Store) (r : Nat) (hwf : instWF s r = true) :
    force_synthetic_class (force_synthetic_class s r).2 r = force_synthetic_class s r := by
  obtain ⟨hr, hshape⟩ := instWF_elim s r hwf
  rcases hshape with ⟨ho, hsyn, m, hc⟩ | ⟨j, ho, hsyn, hc⟩ | ⟨j, k, ho, hsyn, hk, hcor, hnd⟩
  · have hcls : ¬ (getInst s r).cls = Cls.synth s.synths.length := by
      rw [hc]
      exact fun hh => Cls.noConfusion hh
    have R := roundtrip_fresh s r hsyn hr hcls
    have hguard : ¬ (getInst (force_synthetic_class s r).2 r).cls
        = _original_class (force_synthetic_class s r).2 r := by
      rw [R.2.1, R.2.2.2.1, hc]
      exact fun hh => Cls.noConfusion hh
    have hnoop := fsc_noop ((force_synthetic_class s r).2) r
      (Cls.synth s.synths.length) R.2.2.1 R.2.1 hguard
    rw [hnoop, ← R.1]
  · have hcls : ¬ (getInst s r).cls = Cls.synth s.synths.length := by
      rw [hc]
      exact fun hh => Cls.noConfusion hh
    have R := roundtrip_fresh s r hsyn hr hcls
    have hguard : ¬ (getInst (force_synthetic_class s r).2 r).cls
        = _original_class (force_synthetic_class s r).2 r := by
      rw [R.2.1, R.2.2.2.1, hc]
      exact fun hh => Cls.noConfusion hh
    have hnoop := fsc_noop ((force_synthetic_class s r).2) r
      (Cls.synth s.synths.length) R.2.2.1 R.2.1 hguard
    rw [hnoop, ← R.1]
  · rcases hcor with hc | hc
    · have hbkkeys : ((bkAt s k).map Prod.fst).Nodup := hnd
      have R := roundtrip_stash_free s r k j ho hsyn hc hr hk
      have hguard : ¬ (getInst (force_synthetic_class s r).2 r).cls
          = _original_class (force_synthetic_class s r).2 r := by
        rw [R.2.1, R.2.2.2.1, hc]
        exact fun hh => Cls.noConfusion hh
      have hnoop := fsc_noop ((force_synthetic_class s r).2) r
        (Cls.synth k) R.2.2.1 R.2.1 hguard
      rw [hnoop, ← R.1]
    · have hguard : ¬ (getInst s r).cls = _original_class s r := by
        rw [hc, original_class_of_some s r _ ho]
        exact fun hh => Cls.noConfusion hh
      have hfsc := fsc_noop s r (Cls.synth k) hsyn hc hguard
      rw [hfsc]
      exact hfsc

theorem C3_force_synthetic_idempotent_witness :
    instWF sPatchedDemo 0 = true ∧
    force_synthetic_class (force_synthetic_class sPatchedDemo 0).2 0
      = force_synthetic_class sPatchedDemo 0 :=
  ⟨by decide, C3_force_synthetic_idempotent sPatchedDemo 0 (by decide)⟩

/-- The common core of the nested-scope argument, given the round-trip facts
about one `force_synthetic_class`: an inner `synthetic_class` scope entered
while the instance is already synthetic is a complete no-op (its exit does not
force the instance original), while the outer scope's exit does restore the
pre-scope class and attributes; and the full nested run equals that outer
exit. -/
theorem scoped_core (s : Store) (r K m0 : Nat)
    (hcO : (getInst s r).cls = Cls.orig m0)
    (R1 : (force_synthetic_class s r).1 = Except.ok (Cls.synth K))
    (R2 : (getInst (force_synthetic_class s r).2 r).cls = Cls.synth K)
    (R3 : (getInst (force_synthetic_class s r).2 r).xSynthetic = some (Cls.synth K))
    (R4 : _original_class (force_synthetic_class s r).2 r = (getInst s r).cls)
    (R5 : (force_original_class (force_synthetic_class s r).2 r).1
        = Except.ok ((getInst s r).cls))
    (R6 : (getInst (force_original_class (force_synthetic_class s r).2 r).2 r).cls
        = (getInst s r).cls)
    (R7 : ∀ name,
      dictGet (getInst (force_original_class (force_synthetic_class s r).2 r).2 r).attrs name
        = dictGet (getInst s r).attrs name) :
    (synthetic_class_run r [] (fun t => (Except.ok (), t)) (force_synthetic_class s r).2
        = (Except.ok (), (force_synthetic_class s r).2)) ∧
    (∃ k2, (getInst (force_synthetic_class s r).2 r).cls = Cls.synth k2) ∧
    ¬ (getInst (force_synthetic_class s r).2 r).cls = (getInst s r).cls ∧
    (synthetic_class_exit [(getInst s r).cls] [r] (force_synthetic_class s r).2).1
        = Except.ok () ∧
    (getInst (synthetic_class_exit [(getInst s r).cls] [r]
        (force_synthetic_class s r).2).2 r).cls = (getInst s r).cls ∧
    (∀ name, dictGet (getInst (synthetic_class_exit [(getInst s r).cls] [r]
        (force_synthetic_class s r).2).2 r).attrs name
        = dictGet (getInst s r).attrs name) ∧
    synthetic_class_run r []
        (fun t => synthetic_class_run r [] (fun u => (Except.ok (), u)) t) s
      = synthetic_class_exit [(getInst s r).cls] [r] (force_synthetic_class s r).2 := by
  set S1 : Store := (force_synthetic_class s r).2 with hS1d
  set U : Store := (force_original_class S1 r).2 with hUd
  have hguardS1 : ¬ (getInst S1 r).cls = _original_class S1 r := by
    rw [R2, R4, hcO]
    exact fun hh => Cls.noConfusion hh
  have hne : ¬ (getInst S1 r).cls = (getInst s r).cls := by
    rw [R2, hcO]
    exact fun hh => Cls.noConfusion hh
  have hfscS1 : force_synthetic_class S1 r = (Except.ok (Cls.synth K), S1) :=
    fsc_noop S1 r (Cls.synth K) R3 R2 hguardS1
  have hfe1 : force_each [r] S1 = (Except.ok [Cls.synth K], S1) := by
    simp only [force_each, hfscS1]
  have hinner : synthetic_class_run r [] (fun t => (Except.ok (), t)) S1
      = (Except.ok (), S1) := by
    simp only [synthetic_class_run, List.map_cons, List.map_nil, hfe1,
               synthetic_class_exit, if_neg hguardS1]
  have hfocpair : force_original_class S1 r = (Except.ok ((getInst s r).cls), U) := by
    rw [hUd, ← R5]
  have hguardOut : (getInst s r).cls = _original_class S1 r := R4.symm
  have hexit : synthetic_class_exit [(getInst s r).cls] [r] S1 = (Except.ok (), U) := by
    simp only [synthetic_class_exit, if_pos hguardOut, hfocpair]
  have hfscpair : force_synthetic_class s r = (Except.ok (Cls.synth K), S1) := by
    rw [hS1d, ← R1]
  have hfe0 : force_each [r] s = (Except.ok [Cls.synth K], S1) := by
    simp only [force_each, hfscpair]
  have houter : synthetic_class_run r []
      (fun t => synthetic_class_run r [] (fun u => (Except.ok (), u)) t) s
      = synthetic_class_exit [(getInst s r).cls] [r] S1 := by
    simp only [synthetic_class_run, List.map_cons, List.map_nil, hfe0, hfe1,
               synthetic_class_exit, if_neg hguardS1, if_pos hguardOut, hfocpair]
  refine ⟨hinner, ⟨K, R2⟩, hne, ?_, ?_, ?_, houter⟩
  · rw [hexit]
  · rw [hexit]
    exact R6
  · intro name
    rw [hexit]
    exact R7 name

/-- C7: nesting two `synthetic_class` scopes over one instance: the inner
scope (entered while the instance is already synthetic) is a complete no-op —
in particular its exit does not force the instance back to original state —
while the outer scope's exit restores the pre-scope class and attributes,
because the exit forces original exactly when the entry-time class equals the
instance's original class. -/
theorem C7_nested_synthetic_scopes (s : Store) (r : Nat)
    (hwf : instWF s r = true)
    (horig : (getInst s r).cls = _original_class s r)
    (hkeys : ∀ a ∈ bkKeys s r, (dictGet (getInst s r).attrs a).isSome = true) :
    (synthetic_class_run r [] (fun t => (Except.ok (), t)) (force_synthetic_class s r).2
        = (Except.ok (), (force_synthetic_class s r).2)) ∧
    (∃ k2, (getInst (force_synthetic_class s r).2 r).cls = Cls.synth k2) ∧
    ¬ (getInst (force_synthetic_class s r).2 r).cls = (getInst s r).cls ∧
    (synthetic_class_exit [(getInst s r).cls] [r] (force_synthetic_class s r).2).1
        = Except.ok () ∧
    (getInst (synthetic_class_exit [(getInst s r).cls] [r]
        (force_synthetic_class s r).2).2 r).cls = (getInst s r).cls ∧
    (∀ name, dictGet (getInst (synthetic_class_exit [(getInst s r).cls] [r]
        (force_synthetic_class s r).2).2 r).attrs name
        = dictGet (getInst s r).attrs name) ∧
    synthetic_class_run r []
        (fun t => synthetic_class_run r [] (fun u => (Except.ok (), u)) t) s
      = synthetic_class_exit [(getInst s r).cls] [r] (force_synthetic_class s r).2 := by
  obtain ⟨hr, hshape⟩ := instWF_elim s r hwf
  rcases hshape with ⟨ho, hsyn, m, hc⟩ | ⟨j, ho, hsyn, hc⟩ | ⟨j, k, ho, hsyn, hk, hcor, hnd⟩
  · have hcls : ¬ (getInst s r).cls = Cls.synth s.synths.length := by
      rw [hc]
      exact fun hh => Cls.noConfusion hh
    have R := roundtrip_fresh s r hsyn hr hcls
    exact scoped_core s r s.synths.length m hc R.1 R.2.1 R.2.2.1 R.2.2.2.1
      R.2.2.2.2.1 R.2.2.2.2.2.1 R.2.2.2.2.2.2
  · have hcls : ¬ (getInst s r).cls = Cls.synth s.synths.length := by
      rw [hc]
      exact fun hh => Cls.noConfusion hh
    have R := roundtrip_fresh s r hsyn hr hcls
    exact scoped_core s r s.synths.length j hc R.1 R.2.1 R.2.2.1 R.2.2.2.1
      R.2.2.2.2.1 R.2.2.2.2.2.1 R.2.2.2.2.2.2
  · have hc : (getInst s r).cls = Cls.orig j := by
      rw [horig, original_class_of_some s r _ ho]
    have hbkkeys : bkKeys s r = (bkAt s k).map Prod.fst := by
      simp [bkKeys, _synthetic_class, hsyn]
    rw [hbkkeys] at hkeys
    have R := roundtrip_stash s r k j ho hsyn hc hr hk hnd hkeys
    exact scoped_core s r k j hc R.1 R.2.1 R.2.2.1 R.2.2.2.1
      R.2.2.2.2.1 R.2.2.2.2.2.1 R.2.2.2.2.2.2

theorem C7_nested_synthetic_scopes_witness :
    (instWF sPatchedDemo 0 = true ∧
     (getInst sPatchedDemo 0).cls = _original_class sPatchedDemo 0 ∧
     ∀ a ∈ bkKeys sPatchedDemo 0,
       (dictGet (getInst sPatchedDemo 0).attrs a).isSome = true) ∧
    ((synthetic_class_run 0 [] (fun t => (Except.ok (), t))
        (force_synthetic_class sPatchedDemo 0).2
        = (Except.ok (), (force_synthetic_class sPatchedDemo 0).2)) ∧
     (∃ k2, (getInst (force_synthetic_class sPatchedDemo 0).2 0).cls = Cls.synth k2) ∧
     ¬ (getInst (force_synthetic_class sPatchedDemo 0).2 0).cls
        = (getInst sPatchedDemo 0).cls ∧
     (synthetic_class_exit [(getInst sPatchedDemo 0).cls] [0]
        (force_synthetic_class sPatchedDemo 0).2).1 = Except.ok () ∧
     (getInst (synthetic_class_exit [(getInst sPatchedDemo 0).cls] [0]
        (force_synthetic_class sPatchedDemo 0).2).2 0).cls = (getInst sPatchedDemo 0).cls ∧
     (∀ name, dictGet (getInst (synthetic_class_exit [(getInst sPatchedDemo 0).cls] [0]
        (force_synthetic_class sPatchedDemo 0).2).2 0).attrs name
        = dictGet (getInst sPatchedDemo 0).attrs name) ∧
     synthetic_class_run 0 []
        (fun t => synthetic_class_run 0 [] (fun u => (Except.ok (), u)) t) sPatchedDemo
      = synthetic_class_exit [(getInst sPatchedDemo 0).cls] [0]
          (force_synthetic_class sPatchedDemo 0).2) :=
  ⟨⟨by decide, by decide, by decide⟩,
   C7_nested_synthetic_scopes sPatchedDemo 0 (by decide) (by decide) (by decide)⟩

/-- C8: `forget_synthetic_class` followed by `force_synthetic_class` produces
a brand-new synthetic class — a fresh store index distinct from the discarded
one — with empty bookkeeping and no installed descriptors, so no previously
installed descriptor is in effect on the instance's new class. -/
theorem C8_forget_then_force_fresh (s : Store) (r k : Nat) (s2 S : Store)
    (res2 resS : Except PyErr Cls)
    (hwf : instWF s r = true)
    (hsx : (getInst s r).xSynthetic = some (Cls.synth k))
    (hforget : forget_synthetic_class s r = (res2, s2))
    (hforce : force_synthetic_class s2 r = (resS, S)) :
    (getInst s2 r).xSynthetic = Option.none ∧
    resS = Except.ok (Cls.synth s.synths.length) ∧
    ¬ Cls.synth s.synths.length = Cls.synth k ∧
    (getInst S r).xSynthetic = some (Cls.synth s.synths.length) ∧
    (getInst S r).cls = Cls.synth s.synths.length ∧
    bkAt S s.synths.length = [] ∧
    descrAt S s.synths.length = [] ∧
    (∀ name, lookupDescriptor S (Cls.synth s.synths.length) name = Option.none) := by
  obtain ⟨hr, hshape⟩ := instWF_elim s r hwf
  rcases hshape with ⟨ho, hsyn, m, hc⟩ | ⟨j, ho, hsyn, hc⟩ | ⟨j, k2, ho, hsyn, hk2, hcor, hnd⟩
  · rw [hsyn] at hsx
    exact absurd hsx (by simp)
  · rw [hsyn] at hsx
    exact absurd hsx (by simp)
  rw [hsyn] at hsx
  injection hsx with hx1
  injection hx1 with hx2
  subst hx2
  have hfoc := foc_patched s r k2 (Cls.orig j) ho hsyn hr hk2
  set V0 : Store := updateInst s r (fun i2 => { i2 with cls := Cls.orig j }) with hV0d
  set W : Store := _restore_attrs V0 r (bkAt s k2) with hWd
  have hrV0 : r < V0.insts.length := by
    rw [hV0d, insts_length_updateInst]
    exact hr
  have hrW : r < W.insts.length := by
    rw [hWd, (restore_shape r (bkAt s k2) V0).1]
    exact hrV0
  have hgV0 : getInst V0 r = { getInst s r with cls := Cls.orig j } := by
    rw [hV0d]
    exact getInst_updateInst_self s r _ hr
  have hfieldsW := restore_fields r (bkAt s k2) V0 hrV0
  have hWx : (getInst W r).xSynthetic = some (Cls.synth k2) := by
    rw [hWd, hfieldsW.2.2, hgV0]
    exact hsyn
  have hWcls : (getInst W r).cls = Cls.orig j := by
    rw [hWd, hfieldsW.1, hgV0]
  set s2t : Store := updateInst W r (fun i2 => { i2 with xSynthetic := Option.none }) with hs2td
  have hgs2 : getInst s2t r = { getInst W r with xSynthetic := Option.none } := by
    rw [hs2td]
    exact getInst_updateInst_self W r _ hrW
  have hx2n : (getInst s2t r).xSynthetic = Option.none := by rw [hgs2]
  have hcls2 : (getInst s2t r).cls = Cls.orig j := by
    rw [hgs2]
    show (getInst W r).cls = _
    exact hWcls
  have hWxne : ¬ (getInst W r).xSynthetic = Option.none := by simp [hWx]
  have hforgetEq : forget_synthetic_class s r = (Except.ok (Cls.orig j), s2t) := by
    simp only [forget_synthetic_class, hfoc, ← hWd, ← hs2td, if_neg hWxne, hcls2]
  rw [hforgetEq] at hforget
  rw [Prod.mk.injEq] at hforget
  obtain ⟨hres2, hs2eq⟩ := hforget
  subst hs2eq
  have hr2 : r < s2t.insts.length := by
    rw [hs2td, insts_length_updateInst]
    exact hrW
  have hsynths2 : s2t.synths = s.synths := by
    rw [hs2td]
    show W.synths = s.synths
    rw [hWd]
    exact (restore_shape r (bkAt s k2) V0).2.1
  have hlen : s2t.synths.length = s.synths.length := by rw [hsynths2]
  have hcls2L : ¬ (getInst s2t r).cls = Cls.synth s2t.synths.length := by
    rw [hcls2]
    exact fun hh => Cls.noConfusion hh
  have hfscEq := fsc_fresh s2t r hx2n hr2 hcls2L
  rw [hfscEq] at hforce
  rw [Prod.mk.injEq] at hforce
  obtain ⟨hresS, hSeq⟩ := hforce
  subst hSeq
  set A : Store := { s2t with synths := s2t.synths ++
      [{ base := (getInst s2t r).cls, bookeeping := [], descriptors := [] }] } with hAd
  set St : Store := updateInst A r
      (fun i2 => { i2 with xSynthetic := some (Cls.synth s2t.synths.length),
                           xOriginal := some i2.cls,
                           cls := Cls.synth s2t.synths.length }) with hStd
  have hrA : r < A.insts.length := hr2
  have hgSt : getInst St r = { getInst s2t r with
      xSynthetic := some (Cls.synth s2t.synths.length),
      xOriginal := some ((getInst s2t r).cls),
      cls := Cls.synth s2t.synths.length } := by
    rw [hStd]
    exact getInst_updateInst_self A r _ hrA
  have hbkSt : bkAt St s2t.synths.length = [] := by
    rw [hStd, bkAt_updateInst]
    show (synAt A s2t.synths.length).bookeeping = []
    rw [hAd, synAt_append_self]
  have hdescrSt : descrAt St s2t.synths.length = [] := by
    rw [hStd]
    show (synAt A s2t.synths.length).descriptors = []
    rw [hAd, synAt_append_self]
  have hgetL : St.synths[s2t.synths.length]?
      = some { base := (getInst s2t r).cls, bookeeping := [], descriptors := [] } := by
    rw [hStd]
    show (s2t.synths ++ [_])[s2t.synths.length]? = _
    simp [List.getElem?_append_right]
  have hlenSt : St.synths.length = s2t.synths.length + 1 := by
    rw [hStd]
    show (s2t.synths ++ [_]).length = _
    simp
  have hlook : ∀ name, lookupDescriptor St (Cls.synth s2t.synths.length) name
      = Option.none := by
    intro name
    show lookupDescriptorAux St (St.synths.length + 1) (Cls.synth s2t.synths.length) name
        = Option.none
    rw [hlenSt]
    simp only [lookupDescriptorAux, hgetL, dictGet, hcls2]
  rw [← hlen]
  refine ⟨hx2n, ?_, ?_, ?_, ?_, hbkSt, hdescrSt, hlook⟩
  · rw [← hresS]
  · simp only [Cls.synth.injEq]
    rw [hlen]
    exact Ne.symm (Nat.ne_of_lt hk2)
  · rw [hgSt]
  · rw [hgSt]

theorem C8_forget_then_force_fresh_witness :
    (instWF sPatchedDemo 0 = true ∧
     (getInst sPatchedDemo 0).xSynthetic = some (Cls.synth 0) ∧
     forget_synthetic_class sPatchedDemo 0 =
       (Except.ok (Cls.orig 0),
        { insts := [{ cls := Cls.orig 0, attrs := [("a", Value.int 1)],
                      xOriginal := some (Cls.orig 0), xSynthetic := Option.none }],
          synths := [{ base := Cls.orig 0, bookeeping := [("a", Value.int 1)],
                       descriptors := [] }],
          descs := [], exts := [] }) ∧
     force_synthetic_class
       { insts := [{ cls := Cls.orig 0, attrs := [("a", Value.int 1)],
                     xOriginal := some (Cls.orig 0), xSynthetic := Option.none }],
         synths := [{ base := Cls.orig 0, bookeeping := [("a", Value.int 1)],
                      descriptors := [] }],
         descs := [], exts := [] } 0 =
       (Except.ok (Cls.synth 1),
        { insts := [{ cls := Cls.synth 1, attrs := [("a", Value.int 1)],
                      xOriginal := some (Cls.orig 0), xSynthetic := some (Cls.synth 1) }],
          synths := [{ base := Cls.orig 0, bookeeping := [("a", Value.int 1)],
                       descriptors := [] },
                     { base := Cls.orig 0, bookeeping := [], descriptors := [] }],
          descs := [], exts := [] })) ∧
    ((getInst
        { insts := [{ cls := Cls.orig 0, attrs := [("a", Value.int 1)],
                      xOriginal := some (Cls.orig 0), xSynthetic := Option.none }],
          synths := [{ base := Cls.orig 0, bookeeping := [("a", Value.int 1)],
                       descriptors := [] }],
          descs := [], exts := [] } 0).xSynthetic = Option.none ∧
     (Except.ok (Cls.synth 1) : Except PyErr Cls) = Except.ok (Cls.synth 1) ∧
     ¬ Cls.synth 1 = Cls.synth 0 ∧
     (getInst
        { insts := [{ cls := Cls.synth 1, attrs := [("a", Value.int 1)],
                      xOriginal := some (Cls.orig 0), xSynthetic := some (Cls.synth 1) }],
          synths := [{ base := Cls.orig 0, bookeeping := [("a", Value.int 1)],
                       descriptors := [] },
                     { base := Cls.orig 0, bookeeping := [], descriptors := [] }],
          descs := [], exts := [] } 0).xSynthetic = some (Cls.synth 1) ∧
     (getInst
        { insts := [{ cls := Cls.synth 1, attrs := [("a", Value.int 1)],
                      xOriginal := some (Cls.orig 0), xSynthetic := some (Cls.synth 1) }],
          synths := [{ base := Cls.orig 0, bookeeping := [("a", Value.int 1)],
                       descriptors := [] },
                     { base := Cls.orig 0, bookeeping := [], descriptors := [] }],
          descs := [], exts := [] } 0).cls = Cls.synth 1 ∧
     bkAt
        { insts := [{ cls := Cls.synth 1, attrs := [("a", Value.int 1)],
                      xOriginal := some (Cls.orig 0), xSynthetic := some (Cls.synth 1) }],
          synths := [{ base := Cls.orig 0, bookeeping := [("a", Value.int 1)],
                       descriptors := [] },
                     { base := Cls.orig 0, bookeeping := [], descriptors := [] }],
          descs := [], exts := [] } 1 = [] ∧
     descrAt
        { insts := [{ cls := Cls.synth 1, attrs := [("a", Value.int 1)],
                      xOriginal := some (Cls.orig 0), xSynthetic := some (Cls.synth 1) }],
          synths := [{ base := Cls.orig 0, bookeeping := [("a", Value.int 1)],
                       descriptors := [] },
                     { base := Cls.orig 0, bookeeping := [], descriptors := [] }],
          descs := [], exts := [] } 1 = [] ∧
     (∀ name, lookupDescriptor
        { insts := [{ cls := Cls.synth 1, attrs := [("a", Value.int 1)],
                      xOriginal := some (Cls.orig 0), xSynthetic := some (Cls.synth 1) }],
          synths := [{ base := Cls.orig 0, bookeeping := [("a", Value.int 1)],
                       descriptors := [] },
                     { base := Cls.orig 0, bookeeping := [], descriptors := [] }],
          descs := [], exts := [] } (Cls.synth 1) name = Option.none)) :=
  ⟨⟨by decide, by decide, by decide, by decide⟩,
   C8_forget_then_force_fresh sPatchedDemo 0 0
     { insts := [{ cls := Cls.orig 0, attrs := [("a", Value.int 1)],
                   xOriginal := some (Cls.orig 0), xSynthetic := Option.none }],
       synths := [{ base := Cls.orig 0, bookeeping := [("a", Value.int 1)],
                    descriptors := [] }],
       descs := [], exts := [] }
     { insts := [{ cls := Cls.synth 1, attrs := [("a", Value.int 1)],
                   xOriginal := some (Cls.orig 0), xSynthetic := some (Cls.synth 1) }],
       synths := [{ base := Cls.orig 0, bookeeping := [("a", Value.int 1)],
                    descriptors := [] },
                  { base := Cls.orig 0, bookeeping := [], descriptors := [] }],
       descs := [], exts := [] }
     (Except.ok (Cls.orig 0)) (Except.ok (Cls.synth 1))
     (by decide) (by decide) (by decide) (by decide)⟩
